import Mathlib

/-!
Verification development for the VOYA-CollectorFE capture client.

The definitions below are a shallow embedding of the real-time capture
pipeline of `src/components/FullscreenCaptureModal.tsx` together with the
configuration constants of `src/config/capture.ts`.  JavaScript numbers are
modelled as rationals (`ℚ`), `Date.now()` timestamps as natural numbers
(milliseconds), JavaScript `undefined` as `Option`, and the React
`state`/`ref` pairs as single authoritative fields of one state record
(the component keeps the two synchronised; the refs are the values all
callbacks read).  `setTimeout` callbacks are kept in an explicit timer
queue carrying their deadlines; timers fire in deadline order (ties in
insertion order) before any later event is processed, exactly as the
browser event loop schedules them.  None of the scheduled completion /
record-start / settle timeouts in the source is ever cancelled, and the
model reflects that.
-/

namespace VoyaCollector

/-- A MediaPipe landmark: a point with an optional visibility score
(`src/types`, consumed throughout `FullscreenCaptureModal.tsx`). -/
structure MediaPipeLandmark where
  x : ℚ
  y : ℚ
  z : ℚ
  visibility : Option ℚ
deriving DecidableEq, Repr

abbrev HandLandmarks := List MediaPipeLandmark

/-- One stored frame: `{left_hand, right_hand}` landmark lists
(`FullscreenCaptureModal.tsx`, the `frames` state). -/
structure CapturedFrame where
  left_hand : HandLandmarks
  right_hand : HandLandmarks
deriving DecidableEq, Repr

/-! ### Configuration constants (`src/config/capture.ts`) -/

def TARGET_FRAMES : Nat := 60

def CAPTURE_COUNT : Nat := 5

def SAMPLE_FPS : Nat := 30

/-- `Math.round(1000 / SAMPLE_FPS)`: round-half-up of `1000/30`, i.e. `33`. -/
def FRAME_INTERVAL_MS : Nat := (2 * 1000 + SAMPLE_FPS) / (2 * SAMPLE_FPS)

/-- `VITE_SWAP_HANDEDNESS` defaults to `false`
(`parseBoolEnv(import.meta.env.VITE_SWAP_HANDEDNESS, false)`). -/
def SWAP_HANDEDNESS : Bool := false

/-! ### One-Euro filter.

Modelled from the spec: the component imports `OneEuroFilter` from
`src/utils/oneEuro`, a file that is not part of this snapshot; §4.1 of the
specification describes it.  First call returns the raw value unchanged and
stores it; subsequent calls low-pass the derivative estimate
`(value - prev) / dt`, compute the adaptive cutoff
`min_cutoff + beta * |derivative|` and low-pass the value with a smoothing
factor derived from that cutoff and `dt`; `dt ≤ 0` is clamped to a minimal
epsilon (here 1 ms).  `π` is replaced by the rational `355/113`; no claim
inspects the filtered values, only the shape of the output. -/

def ratPi : ℚ := 355 / 113

structure OneEuroFilter where
  freq : ℚ
  minCutoff : ℚ
  beta : ℚ
  dCutoff : ℚ
  /-- previous filtered value, previous derivative estimate and previous
  timestamp (ms); `none` before the first call. -/
  prev : Option (ℚ × ℚ × Nat)
deriving DecidableEq, Repr

/-- Smoothing factor for a cutoff frequency and an elapsed time in ms. -/
def oneEuroAlpha (cutoff : ℚ) (teMs : ℚ) : ℚ :=
  let tau : ℚ := 1000 / (2 * ratPi * cutoff)
  teMs / (teMs + tau)

def oneEuroLowpass (cutoff : ℚ) (teMs : ℚ) (v prev : ℚ) : ℚ :=
  let a := oneEuroAlpha cutoff teMs
  a * v + (1 - a) * prev

def OneEuroFilter.filter (f : OneEuroFilter) (v : ℚ) (t : Nat) :
    ℚ × OneEuroFilter :=
  match f.prev with
  | none => (v, { f with prev := some (v, 0, t) })
  | some (pv, pdx, pt) =>
      let teMs : ℚ := (max (t - pt) 1 : Nat)
      let dx := (v - pv) * 1000 / teMs
      let edx := oneEuroLowpass f.dCutoff teMs dx pdx
      let cutoff := f.minCutoff + f.beta * |edx|
      let fv := oneEuroLowpass cutoff teMs v pv
      (fv, { f with prev := some (fv, edx, t) })

/-! ### Filter bank (`filtersRef` / `getFilter` / `filterLandmarks`). -/

/-- Fixed filter parameters of the simplified uploader
(`filterMinCutoff = 1.0`, `filterBeta = 0.01`). -/
def filterMinCutoff : ℚ := 1

def filterBeta : ℚ := 1 / 100

abbrev FilterBank := List (String × OneEuroFilter)

def bankFind (bank : FilterBank) (key : String) : Option OneEuroFilter :=
  (bank.find? (fun p => p.1 = key)).map Prod.snd

def bankStore (bank : FilterBank) (key : String) (f : OneEuroFilter) :
    FilterBank :=
  if (bank.find? (fun p => p.1 = key)).isSome then
    bank.map (fun p => if p.1 = key then (key, f) else p)
  else
    bank ++ [(key, f)]

/-- `getFilter`: lazily create the filter for a key with the live
parameters `new OneEuroFilter(30, filterMinCutoff, filterBeta, 1.0)`. -/
def getFilter (bank : FilterBank) (key : String) : OneEuroFilter :=
  match bankFind bank key with
  | some f => f
  | none => ⟨30, filterMinCutoff, filterBeta, 1, none⟩

/-- Apply the keyed filter to one scalar and store the updated state. -/
def applyFilter (bank : FilterBank) (key : String) (v : ℚ) (t : Nat) :
    ℚ × FilterBank :=
  let f := getFilter bank key
  let (fv, f2) := f.filter v t
  (fv, bankStore bank key f2)

/-- The loop body of `filterLandmarks`: one landmark's `x`/`y`/`z` (and
`visibility` when it is a number) run through the per-key One-Euro
filter. -/
def filterLandmarkStep (group : String) (now : Nat)
    (acc : HandLandmarks × FilterBank × Nat) (lm : MediaPipeLandmark) :
    HandLandmarks × FilterBank × Nat :=
  let idx := acc.2.2
  let kx := group ++ "." ++ toString idx ++ ".x"
  let ky := group ++ "." ++ toString idx ++ ".y"
  let kz := group ++ "." ++ toString idx ++ ".z"
  let kv := group ++ "." ++ toString idx ++ ".v"
  let (fx, b1) := applyFilter acc.2.1 kx lm.x now
  let (fy, b2) := applyFilter b1 ky lm.y now
  let (fz, b3) := applyFilter b2 kz lm.z now
  let (fv, b4) : Option ℚ × FilterBank :=
    match lm.visibility with
    | some v =>
        let (w, b) := applyFilter b3 kv v now
        (some w, b)
    | none => (lm.visibility, b3)
  (acc.1 ++ [{ lm with x := fx, y := fy, z := fz, visibility := fv }],
    b4, idx + 1)

/-- `filterLandmarks(landmarks, group)`: `[]` for an undefined list,
otherwise each landmark is run through `filterLandmarkStep`. -/
def filterLandmarks (bank : FilterBank) (landmarks : Option HandLandmarks)
    (group : String) (now : Nat) : HandLandmarks × FilterBank :=
  match landmarks with
  | none => ([], bank)
  | some lms =>
      let r := lms.foldl (filterLandmarkStep group now) ([], bank, 0)
      (r.1, r.2.1)

/-! ### Render interpolation (`renderPrevRef` / `getRenderLandmarks`). -/

def renderAlpha : ℚ := 85 / 100

def lerp (a b t : ℚ) : ℚ := a + (b - a) * t

abbrev RenderPrev := List (String × MediaPipeLandmark)

def renderPrevFind (prev : RenderPrev) (key : String) :
    Option MediaPipeLandmark :=
  (prev.find? (fun p => p.1 = key)).map Prod.snd

def renderPrevStore (prev : RenderPrev) (key : String)
    (lm : MediaPipeLandmark) : RenderPrev :=
  if (prev.find? (fun p => p.1 = key)).isSome then
    prev.map (fun p => if p.1 = key then (key, lm) else p)
  else
    prev ++ [(key, lm)]

/-- `getRenderLandmarks(raw, group)`: lerp each landmark towards the raw
detection with factor `renderAlpha`, seeding the per-key state on first
sight.  Returns `[]` when `raw` is undefined. -/
def getRenderLandmarks (prev : RenderPrev) (raw : Option HandLandmarks)
    (group : String) : HandLandmarks × RenderPrev :=
  match raw with
  | none => ([], prev)
  | some lms =>
      let alpha := max 0 (min 1 renderAlpha)
      let step := fun (acc : HandLandmarks × RenderPrev × Nat)
          (lm : MediaPipeLandmark) =>
        let idx := acc.2.2
        let key := group ++ "." ++ toString idx
        match renderPrevFind acc.2.1 key with
        | none =>
            (acc.1 ++ [lm], renderPrevStore acc.2.1 key lm, idx + 1)
        | some prevLm =>
            let tx := lm.x
            let ty := lm.y
            let tz := lm.z
            let nx := lerp prevLm.x tx alpha
            let ny := lerp prevLm.y ty alpha
            let nz := lerp prevLm.z tz alpha
            let nv : Option ℚ :=
              match lm.visibility with
              | some tv =>
                  some (lerp (prevLm.visibility.getD tv) tv alpha)
              | none => prevLm.visibility
            let out : MediaPipeLandmark :=
              { lm with x := nx, y := ny, z := nz, visibility := nv }
            (acc.1 ++ [out], renderPrevStore acc.2.1 key out, idx + 1)
      let r := lms.foldl step ([], prev, 0)
      (r.1, r.2.1)

/-! ### Presence voting (`leftPresenceHistoryRef` etc., `onResults`). -/

def PRESENCE_HISTORY_SIZE : Nat := 5

/-- Push one detection outcome: `push`, then a single `shift()` when the
history exceeds `PRESENCE_HISTORY_SIZE`. -/
def pushPresence (h : List Bool) (b : Bool) : List Bool :=
  let h2 := h ++ [b]
  if PRESENCE_HISTORY_SIZE < h2.length then h2.tail else h2

/-- `votes = history.filter(Boolean).length`. -/
def presenceVotes (h : List Bool) : Nat := h.countP (fun b => b)

/-- `votes > history.length / 2` with JavaScript (real) division. -/
def isPresent (h : List Bool) : Bool :=
  decide ((presenceVotes h : ℚ) > (h.length : ℚ) / 2)

/-! ### Handedness classification (`hands.onResults`, mapping loop). -/

/-- The `effectiveLabel` computation: swap `Left`/`Right` when enabled. -/
def swapLabelIf (swapEnabled : Bool) (l : Option String) : Option String :=
  if swapEnabled then
    if l = some "Left" then some "Right"
    else if l = some "Right" then some "Left"
    else l
  else l

/-- Per-frame classification of detections into the left/right slots:
iterate in detector order, apply the optional swap, assign a detection to a
slot only when that slot is still empty.  Both slots stay empty when the
landmark and handedness arrays disagree in length, as in the source
guard. -/
def classifyHands (swapEnabled : Bool) (mhl : List HandLandmarks)
    (mhd : List (Option String)) :
    Option HandLandmarks × Option HandLandmarks :=
  if mhl.length = mhd.length then
    (mhl.zip mhd).foldl
      (fun (acc : Option HandLandmarks × Option HandLandmarks) p =>
        let eff := swapLabelIf swapEnabled p.2
        if eff = some "Left" ∧ acc.1 = none then (some p.1, acc.2)
        else if eff = some "Right" ∧ acc.2 = none then (acc.1, some p.1)
        else acc)
      (none, none)
  else (none, none)

/-! ### Quality metrics (`computeQuality`). -/

structure QualityInfo where
  framesCollected : Nat
  framesAccepted : Nat
  avgPoseLandmarksPerFrame : ℚ
  percentFramesWithHands : ℚ
  confidenceSummary : Option ℚ
deriving DecidableEq, Repr

structure QualityAcc where
  totalHandLandmarks : Nat
  framesWithHands : Nat
  framesAccepted : Nat
  confidenceSum : ℚ
  confidenceCount : Nat
deriving DecidableEq, Repr

/-- Per-landmark confidence accumulation inside the `computeQuality`
loop: sum and count the numeric `visibility` values. -/
def frameConfStep (p : ℚ × Nat) (lm : MediaPipeLandmark) : ℚ × Nat :=
  match lm.visibility with
  | some v => (p.1 + v, p.2 + 1)
  | none => p

/-- The body of the `for (const f of capturedFrames)` loop. -/
def qualityStep (acc : QualityAcc) (f : CapturedFrame) : QualityAcc :=
  let leftCount := f.left_hand.length
  let rightCount := f.right_hand.length
  let handCount := leftCount + rightCount
  let acc1 := { acc with totalHandLandmarks := acc.totalHandLandmarks + handCount }
  let acc2 :=
    if 0 < handCount then
      { acc1 with framesWithHands := acc1.framesWithHands + 1 }
    else acc1
  let landmarks := f.left_hand ++ f.right_hand
  let fc := landmarks.foldl frameConfStep (0, 0)
  let acc3 :=
    if 0 < fc.2 then
      { acc2 with confidenceSum := acc2.confidenceSum + fc.1,
                  confidenceCount := acc2.confidenceCount + fc.2 }
    else acc2
  if 0 < handCount then
    { acc3 with framesAccepted := acc3.framesAccepted + 1 }
  else acc3

/-- `computeQuality`: aggregate statistics over a captured frameset, with
every division guarded by the corresponding count being nonzero. -/
def computeQuality (capturedFrames : List CapturedFrame) : QualityInfo :=
  let a := capturedFrames.foldl qualityStep ⟨0, 0, 0, 0, 0⟩
  { framesCollected := capturedFrames.length
    framesAccepted := a.framesAccepted
    avgPoseLandmarksPerFrame :=
      if capturedFrames.length = 0 then 0
      else (a.totalHandLandmarks : ℚ) / capturedFrames.length
    percentFramesWithHands :=
      if capturedFrames.length = 0 then 0
      else (a.framesWithHands : ℚ) / capturedFrames.length * 100
    confidenceSummary :=
      if a.confidenceCount = 0 then none
      else some (a.confidenceSum / (a.confidenceCount : ℚ)) }

/-! ### The capture state machine. -/

/-- The explicit `mode` state of the modal. -/
inductive CaptureMode where
  | IDLE
  | COUNTDOWN
  | RECORD
deriving DecidableEq, Repr

/-- The `setTimeout` callbacks scheduled by the component.  None of them
is ever cancelled in the source.
* `settleThenCountdown`: the 2-second settle delay scheduled after a
  non-final completed capture; it shows the countdown and schedules the
  next record start 3 seconds later.
* `recordStartQuick`: `handleQuickCapture`'s 3-second timeout, which also
  resets the sampling clock to `Date.now()`.
* `recordStartKey`: the Enter-key start path's 3-second timeout (this one
  does not touch the sampling clock).
* `recordStartBatch`: the inner 3-second timeout of the settle delay.
* `finalCleanup`: the 1-second timeout after the final completed capture
  that clears the buffer and counters and clears the action label. -/
inductive TimerKind where
  | settleThenCountdown
  | recordStartQuick
  | recordStartKey
  | recordStartBatch
  | finalCleanup
deriving DecidableEq, Repr

/-- A sample handed to the `onSampleCapture` callback, together with the
metadata the component passes along. -/
structure EmittedSample where
  frames : List CapturedFrame
  label : String
  user : String
  dialect : String
  quality : QualityInfo
deriving DecidableEq, Repr

/-- The mutable state of `FullscreenCaptureModal`: the authoritative
ref/state pairs, the smoothing state and the pending timers (deadline in
ms, kind), in scheduling order. -/
structure ModalState where
  recording : Bool
  paused : Bool
  frames : List CapturedFrame
  mode : CaptureMode
  countdown : Nat
  label : String
  user : String
  dialect : String
  completedCaptures : Nat
  currentCaptureIndex : Nat
  lastFrameTime : Nat
  frameIntervalMs : Nat
  targetFrames : Nat
  captureCount : Nat
  filters : FilterBank
  renderPrev : RenderPrev
  leftPresenceHistory : List Bool
  rightPresenceHistory : List Bool
  visibilityLeft : Bool
  visibilityRight : Bool
  lastRenderedLeft : Option HandLandmarks
  lastRenderedRight : Option HandLandmarks
  handsVisible : Bool
  timers : List (Nat × TimerKind)
deriving DecidableEq, Repr

/-- Initial state of a freshly opened modal: the target/capture-count refs
are enforced to the fixed config constants by the mount effects. -/
def initState (label user : String) : ModalState where
  recording := false
  paused := false
  frames := []
  mode := .IDLE
  countdown := 0
  label := label
  user := user
  dialect := "Bắc"
  completedCaptures := 0
  currentCaptureIndex := 0
  lastFrameTime := 0
  frameIntervalMs := FRAME_INTERVAL_MS
  targetFrames := TARGET_FRAMES
  captureCount := CAPTURE_COUNT
  filters := []
  renderPrev := []
  leftPresenceHistory := []
  rightPresenceHistory := []
  visibilityLeft := false
  visibilityRight := false
  lastRenderedLeft := none
  lastRenderedRight := none
  handsVisible := false
  timers := []

/-- The blocking validation message shown when stopping with too few
frames (the `window.alert` in `handleStop` and in the Enter stop path). -/
def shortStopAlert (collected required : Nat) : String :=
  "Bạn chưa thu đủ khung hình: " ++ toString collected ++ "/"
    ++ toString required ++ ". Vui lòng tiếp tục quay cho đến khi đủ."

/-- `handleQuickCapture` (start button): guard on a non-empty label and
user, reset the capture session, show the countdown and schedule the
record start 3 seconds out. -/
def handleQuickCapture (s : ModalState) (now : Nat) : ModalState :=
  if s.label.isEmpty || s.user.isEmpty then s
  else
    { s with
        frames := []
        currentCaptureIndex := 0
        completedCaptures := 0
        lastFrameTime := 0
        countdown := 3
        mode := .COUNTDOWN
        timers := s.timers ++ [(now + 3000, .recordStartQuick)] }

/-- `handlePause`. -/
def handlePause (s : ModalState) : ModalState :=
  { s with paused := true }

/-- `handleResume`: reset the sampling clock to now to avoid a skip. -/
def handleResume (s : ModalState) (now : Nat) : ModalState :=
  { s with paused := false, lastFrameTime := now }

/-- `handleRestart`: discard the collected frames and restart from zero.
Note that it neither stops the recording nor changes the mode. -/
def handleRestart (s : ModalState) (now : Nat) : ModalState :=
  { s with frames := [], paused := false, lastFrameTime := now }

/-- `handleStop`: block the stop with an alert while fewer than
`targetFrames` frames are collected; otherwise stop, unpause and emit the
collected frames as a sample. -/
def handleStop (s : ModalState) :
    ModalState × List EmittedSample × List String :=
  let collected := s.frames.length
  let required := s.targetFrames
  if collected < required then
    (s, [], [shortStopAlert collected required])
  else
    let s1 := { s with recording := false, paused := false }
    if 0 < s1.frames.length then
      let quality := computeQuality s1.frames
      ({ s1 with frames := [] },
        [⟨s1.frames, s1.label, s1.user, s1.dialect, quality⟩], [])
    else (s1, [], [])

/-- The Enter key handler: when idle with a label and user, start a
capture sequence (without resetting the sampling clock); when recording,
stop with the same short-stop guard as `handleStop` (but without touching
`paused`). -/
def pressEnterKey (s : ModalState) (now : Nat) :
    ModalState × List EmittedSample × List String :=
  if !s.recording && !s.label.isEmpty && !s.user.isEmpty then
    ({ s with
        frames := []
        currentCaptureIndex := 0
        completedCaptures := 0
        countdown := 3
        mode := .COUNTDOWN
        timers := s.timers ++ [(now + 3000, .recordStartKey)] }, [], [])
  else if s.recording then
    let collected := s.frames.length
    let required := s.targetFrames
    if collected < required then
      (s, [], [shortStopAlert collected required])
    else
      let s1 := { s with recording := false }
      if 0 < s1.frames.length then
        let quality := computeQuality s1.frames
        ({ s1 with frames := [] },
          [⟨s1.frames, s1.label, s1.user, s1.dialect, quality⟩], [])
      else (s1, [], [])
  else (s, [], [])

/-- The `KeyA` abort shortcut: discard partial frames and return to
idle. -/
def pressAbortKey (s : ModalState) : ModalState :=
  if s.recording then
    { s with
        recording := false
        paused := false
        frames := []
        mode := .IDLE }
  else s

/-- Effect of one fired timer callback, run at its deadline `d`. -/
def fireTimer (s : ModalState) (d : Nat) : TimerKind → ModalState
  | .settleThenCountdown =>
      { s with
          countdown := 3
          mode := .COUNTDOWN
          timers := s.timers ++ [(d + 3000, .recordStartBatch)] }
  | .recordStartQuick =>
      { s with recording := true, mode := .RECORD, lastFrameTime := d }
  | .recordStartKey =>
      { s with recording := true, mode := .RECORD }
  | .recordStartBatch =>
      { s with recording := true, mode := .RECORD, lastFrameTime := d }
  | .finalCleanup =>
      { s with
          frames := []
          lastFrameTime := 0
          completedCaptures := 0
          currentCaptureIndex := 0
          recording := false
          mode := .IDLE
          label := "" }

/-- Remove the earliest-deadline timer (ties resolved by scheduling
order, like the browser's timer list) and return it with the remaining
queue. -/
def selectMinTimer :
    List (Nat × TimerKind) →
    Option ((Nat × TimerKind) × List (Nat × TimerKind))
  | [] => none
  | t :: ts =>
      match selectMinTimer ts with
      | none => some (t, [])
      | some (m, rest) =>
          if t.1 ≤ m.1 then some (t, ts) else some (m, t :: rest)

/-- Fire every timer whose deadline has passed, in deadline order, before
an event at time `now` is handled.  `fuel` bounds the recursion; each
fired settle timer schedules at most one further timer. -/
def fireDueTimers : Nat → ModalState → Nat → ModalState
  | 0, s, _ => s
  | fuel + 1, s, now =>
      match selectMinTimer s.timers with
      | none => s
      | some ((d, k), rest) =>
          if d ≤ now then
            fireDueTimers fuel (fireTimer { s with timers := rest } d k) now
          else s

/-- The `captureLeft`/`captureRight` computation of `hands.onResults`:
use the detected hand, otherwise fall back to the last-known rendered set
when the voted presence is still true. -/
def substitutedHand (hl : Option HandLandmarks) (voted : Bool)
    (lastRendered : Option HandLandmarks) : Option HandLandmarks :=
  match hl with
  | some l => some l
  | none => if voted && lastRendered.isSome then lastRendered else none

/-- The `lms.some(lm => lm.visibility === undefined || lm.visibility >= 0.5)`
check of the acceptance filter, `false` for an undefined hand. -/
def handAnyVisible : Option HandLandmarks → Bool
  | some l =>
      l.any (fun lm =>
        match lm.visibility with
        | some v => decide (v ≥ 1 / 2)
        | none => true)
  | none => false

/-- The acceptance filter and buffering of `hands.onResults`: append the
filtered frame when `anyVisible || anyHands` holds for the substituted
hands, otherwise drop the frame. -/
def acceptFrame (s : ModalState) (now : Nat)
    (captureLeft captureRight : Option HandLandmarks) : ModalState :=
  if !((handAnyVisible captureLeft || handAnyVisible captureRight)
        || (decide (0 < (captureLeft.getD []).length)
            || decide (0 < (captureRight.getD []).length))) then s
  else
    let (fl, b1) := filterLandmarks s.filters captureLeft "leftHand" now
    let (fr, b2) := filterLandmarks b1 captureRight "rightHand" now
    { s with frames := s.frames ++ [⟨fl, fr⟩], filters := b2 }

/-- The capture-completion section of `hands.onResults`: when the buffer
has reached `TARGET_FRAMES`, emit the sample and either schedule the
2-second settle delay (non-final capture) or the 1-second final cleanup. -/
def completeIfFull (s4 : ModalState) (now : Nat) :
    ModalState × List EmittedSample :=
  if TARGET_FRAMES ≤ s4.frames.length then
    let capturedFrames := s4.frames
    let quality := computeQuality capturedFrames
    let newCompleted := s4.completedCaptures + 1
    let sample : EmittedSample :=
      ⟨capturedFrames, s4.label, s4.user, s4.dialect, quality⟩
    let s5 :=
      { s4 with
          recording := false
          mode := .IDLE
          completedCaptures := newCompleted
          currentCaptureIndex := newCompleted }
    if newCompleted < CAPTURE_COUNT then
      ({ s5 with
          frames := []
          lastFrameTime := 0
          timers := s5.timers ++ [(now + 2000, .settleThenCountdown)] },
        [sample])
    else
      ({ s5 with timers := s5.timers ++ [(now + 1000, .finalCleanup)] },
        [sample])
  else (s4, [])

/-- The capture section of `hands.onResults` (frame-rate gate, last-known
fallback, acceptance filtering, buffering and completion handling).
`leftHL`/`rightHL` are the classified detections of this frame and
`leftSmoothedVisible`/`rightSmoothedVisible` the presence votes computed
just before; `s` already holds the updated smoothing state. -/
def captureStep (s : ModalState) (now : Nat)
    (leftHL rightHL : Option HandLandmarks)
    (leftSmoothedVisible rightSmoothedVisible : Bool) :
    ModalState × List EmittedSample :=
  if s.recording && !s.paused then
    if now - s.lastFrameTime < s.frameIntervalMs then (s, [])
    else
      let s2 := { s with lastFrameTime := now }
      let captureLeft : Option HandLandmarks :=
        substitutedHand leftHL leftSmoothedVisible s.lastRenderedLeft
      let captureRight : Option HandLandmarks :=
        substitutedHand rightHL rightSmoothedVisible s.lastRenderedRight
      let s3 :=
        { s2 with handsVisible :=
            leftSmoothedVisible || rightSmoothedVisible
              || (decide (0 < (captureLeft.getD []).length)
                  || decide (0 < (captureRight.getD []).length))
              || (handAnyVisible captureLeft || handAnyVisible captureRight) }
      completeIfFull (acceptFrame s3 now captureLeft captureRight) now
  else (s, [])

/-- The `hands.onResults` callback: classify the detections, update the
presence histories and votes, update the render/last-known state, then run
the capture logic. -/
def onResults (s : ModalState) (now : Nat) (mhl : List HandLandmarks)
    (mhd : List (Option String)) : ModalState × List EmittedSample :=
  let (leftHL, rightHL) := classifyHands SWAP_HANDEDNESS mhl mhd
  let leftDetectedNow :=
    match leftHL with
    | some l => !l.isEmpty
    | none => false
  let rightDetectedNow :=
    match rightHL with
    | some r => !r.isEmpty
    | none => false
  let lh := pushPresence s.leftPresenceHistory leftDetectedNow
  let rh := pushPresence s.rightPresenceHistory rightDetectedNow
  let leftSmoothedVisible := isPresent lh
  let rightSmoothedVisible := isPresent rh
  let (renderLeft, rp1) :=
    if leftDetectedNow then getRenderLandmarks s.renderPrev leftHL "leftHand"
    else ([], s.renderPrev)
  let lastRL : Option HandLandmarks :=
    if leftDetectedNow then some renderLeft
    else if leftSmoothedVisible && s.lastRenderedLeft.isSome then
      s.lastRenderedLeft
    else none
  let (renderRight, rp2) :=
    if rightDetectedNow then getRenderLandmarks rp1 rightHL "rightHand"
    else ([], rp1)
  let lastRR : Option HandLandmarks :=
    if rightDetectedNow then some renderRight
    else if rightSmoothedVisible && s.lastRenderedRight.isSome then
      s.lastRenderedRight
    else none
  let s1 :=
    { s with
        leftPresenceHistory := lh
        rightPresenceHistory := rh
        visibilityLeft := leftSmoothedVisible
        visibilityRight := rightSmoothedVisible
        renderPrev := rp2
        lastRenderedLeft := lastRL
        lastRenderedRight := lastRR }
  captureStep s1 now leftHL rightHL leftSmoothedVisible rightSmoothedVisible

/-- The external events that can reach the component: a detection result
from the tracker, the user-interface actions (guarded by the conditions
under which each control is rendered/enabled), and the one-second
countdown tick of the countdown effect. -/
inductive CaptureEvent where
  | results (mhl : List HandLandmarks) (mhd : List (Option String))
  | pressStart
  | pressEnter
  | pressStop
  | pressPause
  | pressResume
  | pressRestart
  | pressAbort
  | tickSecond
deriving DecidableEq, Repr

/-- Dispatch of one event at time `now`, mirroring both the handlers and
the render-time guards of the controls that invoke them: the start button
exists only while idle with no countdown, the stop button only while
recording unpaused and is disabled below the frame target, pause only
while recording unpaused, resume/restart only from the paused overlay. -/
def handleEvent (s : ModalState) (now : Nat) :
    CaptureEvent → ModalState × List EmittedSample × List String
  | .results mhl mhd =>
      let (s1, em) := onResults s now mhl mhd
      (s1, em, [])
  | .pressStart =>
      if s.countdown = 0 && !s.recording then
        (handleQuickCapture s now, [], [])
      else (s, [], [])
  | .pressEnter => pressEnterKey s now
  | .pressStop =>
      if s.recording && !s.paused && !(s.frames.length < s.targetFrames)
      then handleStop s
      else (s, [], [])
  | .pressPause =>
      if s.recording && !s.paused then (handlePause s, [], [])
      else (s, [], [])
  | .pressResume =>
      if s.recording && s.paused then (handleResume s now, [], [])
      else (s, [], [])
  | .pressRestart =>
      if s.recording && s.paused then (handleRestart s now, [], [])
      else (s, [], [])
  | .pressAbort => (pressAbortKey s, [], [])
  | .tickSecond =>
      if 0 < s.countdown then ({ s with countdown := s.countdown - 1 }, [], [])
      else (s, [], [])

/-- One step of the event loop: fire every timer already due, then handle
the event itself. -/
def stepEvent (s : ModalState) (te : Nat × CaptureEvent) :
    ModalState × List EmittedSample × List String :=
  let sF := fireDueTimers (2 * s.timers.length + 2) s te.1
  handleEvent sF te.1 te.2

/-- Run a timed event trace, collecting every emitted sample and alert in
order. -/
def runEvents (s : ModalState) :
    List (Nat × CaptureEvent) → ModalState × List EmittedSample × List String
  | [] => (s, [], [])
  | te :: rest =>
      let (s1, em, al) := stepEvent s te
      let (s2, em2, al2) := runEvents s1 rest
      (s2, em ++ em2, al ++ al2)

/-! ### Shared helper lemmas and claim-side definitions. -/

/-- All numeric visibility values carried by the landmarks of a frame
sequence, in order (the values `computeQuality` averages over). -/
def visList (fs : List CapturedFrame) : List ℚ :=
  fs.foldr
    (fun f acc =>
      (f.left_hand ++ f.right_hand).filterMap (fun lm => lm.visibility) ++ acc)
    []

/-- Whether a frame has at least one hand landmark. -/
def frameHasHands (f : CapturedFrame) : Bool :=
  decide (0 < f.left_hand.length + f.right_hand.length)

/-- The spec's acceptance condition, read off its words: at least one hand
has a nonzero landmark count, or at least one landmark carries a
visibility value of at least one half. -/
def specAccepts (cl cr : Option HandLandmarks) : Bool :=
  decide (0 < (cl.getD []).length + (cr.getD []).length)
    || ((cl.getD []) ++ (cr.getD [])).any (fun lm =>
          match lm.visibility with
          | some v => decide (v ≥ 1 / 2)
          | none => false)

/-! ### Concrete inputs shared by several witnesses and runs. -/

/-- A landmark at the origin without a visibility score. -/
def lmZero : MediaPipeLandmark := ⟨0, 0, 0, none⟩

/-- A detection result with a single left hand of one landmark. -/
def resultsLeftHand : CaptureEvent := .results [[lmZero]] [some "Left"]

/-- Sixty detection results, one sampling interval (33 ms) apart. -/
def captureBlock (start : Nat) : List (Nat × CaptureEvent) :=
  (List.range 60).map (fun k => (start + 33 * k, resultsLeftHand))

/-- A 10-frame sample in which 7 frames carry one hand landmark and 3
carry none (the spec's quality-metrics scenario). -/
def demoFrames : List CapturedFrame :=
  List.replicate 7 ⟨[lmZero], []⟩ ++ List.replicate 3 ⟨[], []⟩

/-- A state paused mid-capture with one buffered frame, reached by
starting a capture, receiving one accepted detection and pressing
pause. -/
def pausedMidCapture : ModalState :=
  (runEvents (initState "wave" "p1")
    [(0, .pressStart), (3033, resultsLeftHand), (3040, .pressPause)]).1


/-- One stored frame as produced from a single zero left-hand landmark. -/
def frameZ : CapturedFrame := ⟨[lmZero], []⟩

/-- The sample emitted by a clean 60-frame capture of the canonical
left-hand stream. -/
def sample60 : EmittedSample :=
  ⟨List.replicate 60 frameZ, "wave", "p1", "Bắc", ⟨60, 60, 1, 100, none⟩⟩

/-- The over-long sample emitted in the frame-count race below. -/
def sample61 : EmittedSample :=
  ⟨List.replicate 61 frameZ, "wave", "p1", "Bắc", ⟨61, 61, 1, 100, none⟩⟩

/-- The filter bank after the canonical stream's three coordinate keys
were last sampled at time `t` (all filtered values are zero). -/
def filtersAt (t : Nat) : FilterBank :=
  [("leftHand.0.x", ⟨30, 1, 1/100, 1, some (0, 0, t)⟩),
   ("leftHand.0.y", ⟨30, 1, 1/100, 1, some (0, 0, t)⟩),
   ("leftHand.0.z", ⟨30, 1, 1/100, 1, some (0, 0, t)⟩)]

/-- The normal batch input: one start press, then for each of the five
captures sixty accepted detections at the 33 ms sampling interval,
beginning 33 ms after each record start (the record starts are at 3000,
9980, 16960, 23940 and 30920, driven by the settle/countdown timers), and
one last tick after the final 1-second cleanup timeout. -/
def batchTrace : List (Nat × CaptureEvent) :=
  (0, .pressStart) ::
    (captureBlock 3033 ++ captureBlock 10013 ++ captureBlock 16993
      ++ captureBlock 23973 ++ captureBlock 30953)
    ++ [(33901, CaptureEvent.tickSecond)]

/-- The racing input behind C1: the user starts capture and presses Enter
once more during the initial countdown (at 2500 ms).  Both 3-second start
timers and every later settle/record-start timer run to completion since
the source never cancels them; five 60-frame captures complete at 4980,
7457, 11960, 14437 and 18940 ms, and the record-start timer scheduled by
capture 4's completion chain (due at 19437 ms) fires inside the 1-second
window in which the final capture's 60-frame buffer is still uncleared.
One more detection at 19470 ms then lands in a buffer of 60 frames. -/
def bugTrace : List (Nat × CaptureEvent) :=
  (0, .pressStart) :: (2500, .pressEnter) ::
    (captureBlock 3033 ++ captureBlock 5510 ++ captureBlock 10013
      ++ captureBlock 12490 ++ captureBlock 16993)
    ++ [(19470, resultsLeftHand)]

/-! ### Intermediate states of the two long replays, computed segment by
segment.  Each `bugSk`/`batSk` is the machine state after the k-th segment of
the corresponding trace. -/

def bugS1 : ModalState := { recording := true, paused := false, frames := List.replicate 20 frameZ, mode := VoyaCollector.CaptureMode.RECORD, countdown := 3, label := "wave", user := "p1", dialect := "Bắc", completedCaptures := 0, currentCaptureIndex := 0, lastFrameTime := 3660, frameIntervalMs := 33, targetFrames := 60, captureCount := 5, filters := filtersAt 3660, renderPrev := [("leftHand.0", lmZero)], leftPresenceHistory := [true, true, true, true, true], rightPresenceHistory := [false, false, false, false, false], visibilityLeft := true, visibilityRight := false, lastRenderedLeft := some [lmZero], lastRenderedRight := none, handsVisible := true, timers := [(5500, VoyaCollector.TimerKind.recordStartKey)] }

def bugS2 : ModalState := { recording := true, paused := false, frames := List.replicate 40 frameZ, mode := VoyaCollector.CaptureMode.RECORD, countdown := 3, label := "wave", user := "p1", dialect := "Bắc", completedCaptures := 0, currentCaptureIndex := 0, lastFrameTime := 4320, frameIntervalMs := 33, targetFrames := 60, captureCount := 5, filters := filtersAt 4320, renderPrev := [("leftHand.0", lmZero)], leftPresenceHistory := [true, true, true, true, true], rightPresenceHistory := [false, false, false, false, false], visibilityLeft := true, visibilityRight := false, lastRenderedLeft := some [lmZero], lastRenderedRight := none, handsVisible := true, timers := [(5500, VoyaCollector.TimerKind.recordStartKey)] }

def bugS3 : ModalState := { recording := true, paused := false, frames := List.replicate 50 frameZ, mode := VoyaCollector.CaptureMode.RECORD, countdown := 3, label := "wave", user := "p1", dialect := "Bắc", completedCaptures := 0, currentCaptureIndex := 0, lastFrameTime := 4650, frameIntervalMs := 33, targetFrames := 60, captureCount := 5, filters := filtersAt 4650, renderPrev := [("leftHand.0", lmZero)], leftPresenceHistory := [true, true, true, true, true], rightPresenceHistory := [false, false, false, false, false], visibilityLeft := true, visibilityRight := false, lastRenderedLeft := some [lmZero], lastRenderedRight := none, handsVisible := true, timers := [(5500, VoyaCollector.TimerKind.recordStartKey)] }

def bugS4 : ModalState := { recording := false, paused := false, frames := [], mode := VoyaCollector.CaptureMode.IDLE, countdown := 3, label := "wave", user := "p1", dialect := "Bắc", completedCaptures := 1, currentCaptureIndex := 1, lastFrameTime := 0, frameIntervalMs := 33, targetFrames := 60, captureCount := 5, filters := filtersAt 4980, renderPrev := [("leftHand.0", lmZero)], leftPresenceHistory := [true, true, true, true, true], rightPresenceHistory := [false, false, false, false, false], visibilityLeft := true, visibilityRight := false, lastRenderedLeft := some [lmZero], lastRenderedRight := none, handsVisible := true, timers := [(5500, VoyaCollector.TimerKind.recordStartKey), (6980, VoyaCollector.TimerKind.settleThenCountdown)] }

def bugS5 : ModalState := { recording := true, paused := false, frames := List.replicate 20 frameZ, mode := VoyaCollector.CaptureMode.RECORD, countdown := 3, label := "wave", user := "p1", dialect := "Bắc", completedCaptures := 1, currentCaptureIndex := 1, lastFrameTime := 6137, frameIntervalMs := 33, targetFrames := 60, captureCount := 5, filters := filtersAt 6137, renderPrev := [("leftHand.0", lmZero)], leftPresenceHistory := [true, true, true, true, true], rightPresenceHistory := [false, false, false, false, false], visibilityLeft := true, visibilityRight := false, lastRenderedLeft := some [lmZero], lastRenderedRight := none, handsVisible := true, timers := [(6980, VoyaCollector.TimerKind.settleThenCountdown)] }

def bugS6 : ModalState := { recording := true, paused := false, frames := List.replicate 40 frameZ, mode := VoyaCollector.CaptureMode.RECORD, countdown := 3, label := "wave", user := "p1", dialect := "Bắc", completedCaptures := 1, currentCaptureIndex := 1, lastFrameTime := 6797, frameIntervalMs := 33, targetFrames := 60, captureCount := 5, filters := filtersAt 6797, renderPrev := [("leftHand.0", lmZero)], leftPresenceHistory := [true, true, true, true, true], rightPresenceHistory := [false, false, false, false, false], visibilityLeft := true, visibilityRight := false, lastRenderedLeft := some [lmZero], lastRenderedRight := none, handsVisible := true, timers := [(6980, VoyaCollector.TimerKind.settleThenCountdown)] }

def bugS7 : ModalState := { recording := true, paused := false, frames := List.replicate 50 frameZ, mode := VoyaCollector.CaptureMode.COUNTDOWN, countdown := 3, label := "wave", user := "p1", dialect := "Bắc", completedCaptures := 1, currentCaptureIndex := 1, lastFrameTime := 7127, frameIntervalMs := 33, targetFrames := 60, captureCount := 5, filters := filtersAt 7127, renderPrev := [("leftHand.0", lmZero)], leftPresenceHistory := [true, true, true, true, true], rightPresenceHistory := [false, false, false, false, false], visibilityLeft := true, visibilityRight := false, lastRenderedLeft := some [lmZero], lastRenderedRight := none, handsVisible := true, timers := [(9980, VoyaCollector.TimerKind.recordStartBatch)] }

def bugS8 : ModalState := { recording := false, paused := false, frames := [], mode := VoyaCollector.CaptureMode.IDLE, countdown := 3, label := "wave", user := "p1", dialect := "Bắc", completedCaptures := 2, currentCaptureIndex := 2, lastFrameTime := 0, frameIntervalMs := 33, targetFrames := 60, captureCount := 5, filters := filtersAt 7457, renderPrev := [("leftHand.0", lmZero)], leftPresenceHistory := [true, true, true, true, true], rightPresenceHistory := [false, false, false, false, false], visibilityLeft := true, visibilityRight := false, lastRenderedLeft := some [lmZero], lastRenderedRight := none, handsVisible := true, timers := [(9980, VoyaCollector.TimerKind.recordStartBatch), (9457, VoyaCollector.TimerKind.settleThenCountdown)] }

def bugS9 : ModalState := { recording := true, paused := false, frames := List.replicate 20 frameZ, mode := VoyaCollector.CaptureMode.RECORD, countdown := 3, label := "wave", user := "p1", dialect := "Bắc", completedCaptures := 2, currentCaptureIndex := 2, lastFrameTime := 10640, frameIntervalMs := 33, targetFrames := 60, captureCount := 5, filters := filtersAt 10640, renderPrev := [("leftHand.0", lmZero)], leftPresenceHistory := [true, true, true, true, true], rightPresenceHistory := [false, false, false, false, false], visibilityLeft := true, visibilityRight := false, lastRenderedLeft := some [lmZero], lastRenderedRight := none, handsVisible := true, timers := [(12457, VoyaCollector.TimerKind.recordStartBatch)] }

def bugS10 : ModalState := { recording := true, paused := false, frames := List.replicate 40 frameZ, mode := VoyaCollector.CaptureMode.RECORD, countdown := 3, label := "wave", user := "p1", dialect := "Bắc", completedCaptures := 2, currentCaptureIndex := 2, lastFrameTime := 11300, frameIntervalMs := 33, targetFrames := 60, captureCount := 5, filters := filtersAt 11300, renderPrev := [("leftHand.0", lmZero)], leftPresenceHistory := [true, true, true, true, true], rightPresenceHistory := [false, false, false, false, false], visibilityLeft := true, visibilityRight := false, lastRenderedLeft := some [lmZero], lastRenderedRight := none, handsVisible := true, timers := [(12457, VoyaCollector.TimerKind.recordStartBatch)] }

def bugS11 : ModalState := { recording := true, paused := false, frames := List.replicate 50 frameZ, mode := VoyaCollector.CaptureMode.RECORD, countdown := 3, label := "wave", user := "p1", dialect := "Bắc", completedCaptures := 2, currentCaptureIndex := 2, lastFrameTime := 11630, frameIntervalMs := 33, targetFrames := 60, captureCount := 5, filters := filtersAt 11630, renderPrev := [("leftHand.0", lmZero)], leftPresenceHistory := [true, true, true, true, true], rightPresenceHistory := [false, false, false, false, false], visibilityLeft := true, visibilityRight := false, lastRenderedLeft := some [lmZero], lastRenderedRight := none, handsVisible := true, timers := [(12457, VoyaCollector.TimerKind.recordStartBatch)] }

def bugS12 : ModalState := { recording := false, paused := false, frames := [], mode := VoyaCollector.CaptureMode.IDLE, countdown := 3, label := "wave", user := "p1", dialect := "Bắc", completedCaptures := 3, currentCaptureIndex := 3, lastFrameTime := 0, frameIntervalMs := 33, targetFrames := 60, captureCount := 5, filters := filtersAt 11960, renderPrev := [("leftHand.0", lmZero)], leftPresenceHistory := [true, true, true, true, true], rightPresenceHistory := [false, false, false, false, false], visibilityLeft := true, visibilityRight := false, lastRenderedLeft := some [lmZero], lastRenderedRight := none, handsVisible := true, timers := [(12457, VoyaCollector.TimerKind.recordStartBatch), (13960, VoyaCollector.TimerKind.settleThenCountdown)] }

def bugS13 : ModalState := { recording := true, paused := false, frames := List.replicate 20 frameZ, mode := VoyaCollector.CaptureMode.RECORD, countdown := 3, label := "wave", user := "p1", dialect := "Bắc", completedCaptures := 3, currentCaptureIndex := 3, lastFrameTime := 13117, frameIntervalMs := 33, targetFrames := 60, captureCount := 5, filters := filtersAt 13117, renderPrev := [("leftHand.0", lmZero)], leftPresenceHistory := [true, true, true, true, true], rightPresenceHistory := [false, false, false, false, false], visibilityLeft := true, visibilityRight := false, lastRenderedLeft := some [lmZero], lastRenderedRight := none, handsVisible := true, timers := [(13960, VoyaCollector.TimerKind.settleThenCountdown)] }

def bugS14 : ModalState := { recording := true, paused := false, frames := List.replicate 40 frameZ, mode := VoyaCollector.CaptureMode.RECORD, countdown := 3, label := "wave", user := "p1", dialect := "Bắc", completedCaptures := 3, currentCaptureIndex := 3, lastFrameTime := 13777, frameIntervalMs := 33, targetFrames := 60, captureCount := 5, filters := filtersAt 13777, renderPrev := [("leftHand.0", lmZero)], leftPresenceHistory := [true, true, true, true, true], rightPresenceHistory := [false, false, false, false, false], visibilityLeft := true, visibilityRight := false, lastRenderedLeft := some [lmZero], lastRenderedRight := none, handsVisible := true, timers := [(13960, VoyaCollector.TimerKind.settleThenCountdown)] }

def bugS15 : ModalState := { recording := true, paused := false, frames := List.replicate 50 frameZ, mode := VoyaCollector.CaptureMode.COUNTDOWN, countdown := 3, label := "wave", user := "p1", dialect := "Bắc", completedCaptures := 3, currentCaptureIndex := 3, lastFrameTime := 14107, frameIntervalMs := 33, targetFrames := 60, captureCount := 5, filters := filtersAt 14107, renderPrev := [("leftHand.0", lmZero)], leftPresenceHistory := [true, true, true, true, true], rightPresenceHistory := [false, false, false, false, false], visibilityLeft := true, visibilityRight := false, lastRenderedLeft := some [lmZero], lastRenderedRight := none, handsVisible := true, timers := [(16960, VoyaCollector.TimerKind.recordStartBatch)] }

def bugS16 : ModalState := { recording := false, paused := false, frames := [], mode := VoyaCollector.CaptureMode.IDLE, countdown := 3, label := "wave", user := "p1", dialect := "Bắc", completedCaptures := 4, currentCaptureIndex := 4, lastFrameTime := 0, frameIntervalMs := 33, targetFrames := 60, captureCount := 5, filters := filtersAt 14437, renderPrev := [("leftHand.0", lmZero)], leftPresenceHistory := [true, true, true, true, true], rightPresenceHistory := [false, false, false, false, false], visibilityLeft := true, visibilityRight := false, lastRenderedLeft := some [lmZero], lastRenderedRight := none, handsVisible := true, timers := [(16960, VoyaCollector.TimerKind.recordStartBatch), (16437, VoyaCollector.TimerKind.settleThenCountdown)] }

def bugS17 : ModalState := { recording := true, paused := false, frames := List.replicate 20 frameZ, mode := VoyaCollector.CaptureMode.RECORD, countdown := 3, label := "wave", user := "p1", dialect := "Bắc", completedCaptures := 4, currentCaptureIndex := 4, lastFrameTime := 17620, frameIntervalMs := 33, targetFrames := 60, captureCount := 5, filters := filtersAt 17620, renderPrev := [("leftHand.0", lmZero)], leftPresenceHistory := [true, true, true, true, true], rightPresenceHistory := [false, false, false, false, false], visibilityLeft := true, visibilityRight := false, lastRenderedLeft := some [lmZero], lastRenderedRight := none, handsVisible := true, timers := [(19437, VoyaCollector.TimerKind.recordStartBatch)] }

def bugS18 : ModalState := { recording := true, paused := false, frames := List.replicate 40 frameZ, mode := VoyaCollector.CaptureMode.RECORD, countdown := 3, label := "wave", user := "p1", dialect := "Bắc", completedCaptures := 4, currentCaptureIndex := 4, lastFrameTime := 18280, frameIntervalMs := 33, targetFrames := 60, captureCount := 5, filters := filtersAt 18280, renderPrev := [("leftHand.0", lmZero)], leftPresenceHistory := [true, true, true, true, true], rightPresenceHistory := [false, false, false, false, false], visibilityLeft := true, visibilityRight := false, lastRenderedLeft := some [lmZero], lastRenderedRight := none, handsVisible := true, timers := [(19437, VoyaCollector.TimerKind.recordStartBatch)] }

def bugS19 : ModalState := { recording := true, paused := false, frames := List.replicate 50 frameZ, mode := VoyaCollector.CaptureMode.RECORD, countdown := 3, label := "wave", user := "p1", dialect := "Bắc", completedCaptures := 4, currentCaptureIndex := 4, lastFrameTime := 18610, frameIntervalMs := 33, targetFrames := 60, captureCount := 5, filters := filtersAt 18610, renderPrev := [("leftHand.0", lmZero)], leftPresenceHistory := [true, true, true, true, true], rightPresenceHistory := [false, false, false, false, false], visibilityLeft := true, visibilityRight := false, lastRenderedLeft := some [lmZero], lastRenderedRight := none, handsVisible := true, timers := [(19437, VoyaCollector.TimerKind.recordStartBatch)] }

def bugS20 : ModalState := { recording := false, paused := false, frames := List.replicate 60 frameZ, mode := VoyaCollector.CaptureMode.IDLE, countdown := 3, label := "wave", user := "p1", dialect := "Bắc", completedCaptures := 5, currentCaptureIndex := 5, lastFrameTime := 18940, frameIntervalMs := 33, targetFrames := 60, captureCount := 5, filters := filtersAt 18940, renderPrev := [("leftHand.0", lmZero)], leftPresenceHistory := [true, true, true, true, true], rightPresenceHistory := [false, false, false, false, false], visibilityLeft := true, visibilityRight := false, lastRenderedLeft := some [lmZero], lastRenderedRight := none, handsVisible := true, timers := [(19437, VoyaCollector.TimerKind.recordStartBatch), (19940, VoyaCollector.TimerKind.finalCleanup)] }

def bugS21 : ModalState := { recording := false, paused := false, frames := List.replicate 61 frameZ, mode := VoyaCollector.CaptureMode.IDLE, countdown := 3, label := "wave", user := "p1", dialect := "Bắc", completedCaptures := 6, currentCaptureIndex := 6, lastFrameTime := 19470, frameIntervalMs := 33, targetFrames := 60, captureCount := 5, filters := filtersAt 19470, renderPrev := [("leftHand.0", lmZero)], leftPresenceHistory := [true, true, true, true, true], rightPresenceHistory := [false, false, false, false, false], visibilityLeft := true, visibilityRight := false, lastRenderedLeft := some [lmZero], lastRenderedRight := none, handsVisible := true, timers := [(19940, VoyaCollector.TimerKind.finalCleanup), (20470, VoyaCollector.TimerKind.finalCleanup)] }

def batS1 : ModalState := { recording := true, paused := false, frames := List.replicate 20 frameZ, mode := VoyaCollector.CaptureMode.RECORD, countdown := 3, label := "wave", user := "p1", dialect := "Bắc", completedCaptures := 0, currentCaptureIndex := 0, lastFrameTime := 3660, frameIntervalMs := 33, targetFrames := 60, captureCount := 5, filters := filtersAt 3660, renderPrev := [("leftHand.0", lmZero)], leftPresenceHistory := [true, true, true, true, true], rightPresenceHistory := [false, false, false, false, false], visibilityLeft := true, visibilityRight := false, lastRenderedLeft := some [lmZero], lastRenderedRight := none, handsVisible := true, timers := [] }

def batS2 : ModalState := { recording := true, paused := false, frames := List.replicate 40 frameZ, mode := VoyaCollector.CaptureMode.RECORD, countdown := 3, label := "wave", user := "p1", dialect := "Bắc", completedCaptures := 0, currentCaptureIndex := 0, lastFrameTime := 4320, frameIntervalMs := 33, targetFrames := 60, captureCount := 5, filters := filtersAt 4320, renderPrev := [("leftHand.0", lmZero)], leftPresenceHistory := [true, true, true, true, true], rightPresenceHistory := [false, false, false, false, false], visibilityLeft := true, visibilityRight := false, lastRenderedLeft := some [lmZero], lastRenderedRight := none, handsVisible := true, timers := [] }

def batS3 : ModalState := { recording := true, paused := false, frames := List.replicate 50 frameZ, mode := VoyaCollector.CaptureMode.RECORD, countdown := 3, label := "wave", user := "p1", dialect := "Bắc", completedCaptures := 0, currentCaptureIndex := 0, lastFrameTime := 4650, frameIntervalMs := 33, targetFrames := 60, captureCount := 5, filters := filtersAt 4650, renderPrev := [("leftHand.0", lmZero)], leftPresenceHistory := [true, true, true, true, true], rightPresenceHistory := [false, false, false, false, false], visibilityLeft := true, visibilityRight := false, lastRenderedLeft := some [lmZero], lastRenderedRight := none, handsVisible := true, timers := [] }

def batS4 : ModalState := { recording := false, paused := false, frames := [], mode := VoyaCollector.CaptureMode.IDLE, countdown := 3, label := "wave", user := "p1", dialect := "Bắc", completedCaptures := 1, currentCaptureIndex := 1, lastFrameTime := 0, frameIntervalMs := 33, targetFrames := 60, captureCount := 5, filters := filtersAt 4980, renderPrev := [("leftHand.0", lmZero)], leftPresenceHistory := [true, true, true, true, true], rightPresenceHistory := [false, false, false, false, false], visibilityLeft := true, visibilityRight := false, lastRenderedLeft := some [lmZero], lastRenderedRight := none, handsVisible := true, timers := [(6980, VoyaCollector.TimerKind.settleThenCountdown)] }

def batS5 : ModalState := { recording := true, paused := false, frames := List.replicate 20 frameZ, mode := VoyaCollector.CaptureMode.RECORD, countdown := 3, label := "wave", user := "p1", dialect := "Bắc", completedCaptures := 1, currentCaptureIndex := 1, lastFrameTime := 10640, frameIntervalMs := 33, targetFrames := 60, captureCount := 5, filters := filtersAt 10640, renderPrev := [("leftHand.0", lmZero)], leftPresenceHistory := [true, true, true, true, true], rightPresenceHistory := [false, false, false, false, false], visibilityLeft := true, visibilityRight := false, lastRenderedLeft := some [lmZero], lastRenderedRight := none, handsVisible := true, timers := [] }

def batS6 : ModalState := { recording := true, paused := false, frames := List.replicate 40 frameZ, mode := VoyaCollector.CaptureMode.RECORD, countdown := 3, label := "wave", user := "p1", dialect := "Bắc", completedCaptures := 1, currentCaptureIndex := 1, lastFrameTime := 11300, frameIntervalMs := 33, targetFrames := 60, captureCount := 5, filters := filtersAt 11300, renderPrev := [("leftHand.0", lmZero)], leftPresenceHistory := [true, true, true, true, true], rightPresenceHistory := [false, false, false, false, false], visibilityLeft := true, visibilityRight := false, lastRenderedLeft := some [lmZero], lastRenderedRight := none, handsVisible := true, timers := [] }

def batS7 : ModalState := { recording := true, paused := false, frames := List.replicate 50 frameZ, mode := VoyaCollector.CaptureMode.RECORD, countdown := 3, label := "wave", user := "p1", dialect := "Bắc", completedCaptures := 1, currentCaptureIndex := 1, lastFrameTime := 11630, frameIntervalMs := 33, targetFrames := 60, captureCount := 5, filters := filtersAt 11630, renderPrev := [("leftHand.0", lmZero)], leftPresenceHistory := [true, true, true, true, true], rightPresenceHistory := [false, false, false, false, false], visibilityLeft := true, visibilityRight := false, lastRenderedLeft := some [lmZero], lastRenderedRight := none, handsVisible := true, timers := [] }

def batS8 : ModalState := { recording := false, paused := false, frames := [], mode := VoyaCollector.CaptureMode.IDLE, countdown := 3, label := "wave", user := "p1", dialect := "Bắc", completedCaptures := 2, currentCaptureIndex := 2, lastFrameTime := 0, frameIntervalMs := 33, targetFrames := 60, captureCount := 5, filters := filtersAt 11960, renderPrev := [("leftHand.0", lmZero)], leftPresenceHistory := [true, true, true, true, true], rightPresenceHistory := [false, false, false, false, false], visibilityLeft := true, visibilityRight := false, lastRenderedLeft := some [lmZero], lastRenderedRight := none, handsVisible := true, timers := [(13960, VoyaCollector.TimerKind.settleThenCountdown)] }

def batS9 : ModalState := { recording := true, paused := false, frames := List.replicate 20 frameZ, mode := VoyaCollector.CaptureMode.RECORD, countdown := 3, label := "wave", user := "p1", dialect := "Bắc", completedCaptures := 2, currentCaptureIndex := 2, lastFrameTime := 17620, frameIntervalMs := 33, targetFrames := 60, captureCount := 5, filters := filtersAt 17620, renderPrev := [("leftHand.0", lmZero)], leftPresenceHistory := [true, true, true, true, true], rightPresenceHistory := [false, false, false, false, false], visibilityLeft := true, visibilityRight := false, lastRenderedLeft := some [lmZero], lastRenderedRight := none, handsVisible := true, timers := [] }

def batS10 : ModalState := { recording := true, paused := false, frames := List.replicate 40 frameZ, mode := VoyaCollector.CaptureMode.RECORD, countdown := 3, label := "wave", user := "p1", dialect := "Bắc", completedCaptures := 2, currentCaptureIndex := 2, lastFrameTime := 18280, frameIntervalMs := 33, targetFrames := 60, captureCount := 5, filters := filtersAt 18280, renderPrev := [("leftHand.0", lmZero)], leftPresenceHistory := [true, true, true, true, true], rightPresenceHistory := [false, false, false, false, false], visibilityLeft := true, visibilityRight := false, lastRenderedLeft := some [lmZero], lastRenderedRight := none, handsVisible := true, timers := [] }

def batS11 : ModalState := { recording := true, paused := false, frames := List.replicate 50 frameZ, mode := VoyaCollector.CaptureMode.RECORD, countdown := 3, label := "wave", user := "p1", dialect := "Bắc", completedCaptures := 2, currentCaptureIndex := 2, lastFrameTime := 18610, frameIntervalMs := 33, targetFrames := 60, captureCount := 5, filters := filtersAt 18610, renderPrev := [("leftHand.0", lmZero)], leftPresenceHistory := [true, true, true, true, true], rightPresenceHistory := [false, false, false, false, false], visibilityLeft := true, visibilityRight := false, lastRenderedLeft := some [lmZero], lastRenderedRight := none, handsVisible := true, timers := [] }

def batS12 : ModalState := { recording := false, paused := false, frames := [], mode := VoyaCollector.CaptureMode.IDLE, countdown := 3, label := "wave", user := "p1", dialect := "Bắc", completedCaptures := 3, currentCaptureIndex := 3, lastFrameTime := 0, frameIntervalMs := 33, targetFrames := 60, captureCount := 5, filters := filtersAt 18940, renderPrev := [("leftHand.0", lmZero)], leftPresenceHistory := [true, true, true, true, true], rightPresenceHistory := [false, false, false, false, false], visibilityLeft := true, visibilityRight := false, lastRenderedLeft := some [lmZero], lastRenderedRight := none, handsVisible := true, timers := [(20940, VoyaCollector.TimerKind.settleThenCountdown)] }

def batS13 : ModalState := { recording := true, paused := false, frames := List.replicate 20 frameZ, mode := VoyaCollector.CaptureMode.RECORD, countdown := 3, label := "wave", user := "p1", dialect := "Bắc", completedCaptures := 3, currentCaptureIndex := 3, lastFrameTime := 24600, frameIntervalMs := 33, targetFrames := 60, captureCount := 5, filters := filtersAt 24600, renderPrev := [("leftHand.0", lmZero)], leftPresenceHistory := [true, true, true, true, true], rightPresenceHistory := [false, false, false, false, false], visibilityLeft := true, visibilityRight := false, lastRenderedLeft := some [lmZero], lastRenderedRight := none, handsVisible := true, timers := [] }

def batS14 : ModalState := { recording := true, paused := false, frames := List.replicate 40 frameZ, mode := VoyaCollector.CaptureMode.RECORD, countdown := 3, label := "wave", user := "p1", dialect := "Bắc", completedCaptures := 3, currentCaptureIndex := 3, lastFrameTime := 25260, frameIntervalMs := 33, targetFrames := 60, captureCount := 5, filters := filtersAt 25260, renderPrev := [("leftHand.0", lmZero)], leftPresenceHistory := [true, true, true, true, true], rightPresenceHistory := [false, false, false, false, false], visibilityLeft := true, visibilityRight := false, lastRenderedLeft := some [lmZero], lastRenderedRight := none, handsVisible := true, timers := [] }

def batS15 : ModalState := { recording := true, paused := false, frames := List.replicate 50 frameZ, mode := VoyaCollector.CaptureMode.RECORD, countdown := 3, label := "wave", user := "p1", dialect := "Bắc", completedCaptures := 3, currentCaptureIndex := 3, lastFrameTime := 25590, frameIntervalMs := 33, targetFrames := 60, captureCount := 5, filters := filtersAt 25590, renderPrev := [("leftHand.0", lmZero)], leftPresenceHistory := [true, true, true, true, true], rightPresenceHistory := [false, false, false, false, false], visibilityLeft := true, visibilityRight := false, lastRenderedLeft := some [lmZero], lastRenderedRight := none, handsVisible := true, timers := [] }

def batS16 : ModalState := { recording := false, paused := false, frames := [], mode := VoyaCollector.CaptureMode.IDLE, countdown := 3, label := "wave", user := "p1", dialect := "Bắc", completedCaptures := 4, currentCaptureIndex := 4, lastFrameTime := 0, frameIntervalMs := 33, targetFrames := 60, captureCount := 5, filters := filtersAt 25920, renderPrev := [("leftHand.0", lmZero)], leftPresenceHistory := [true, true, true, true, true], rightPresenceHistory := [false, false, false, false, false], visibilityLeft := true, visibilityRight := false, lastRenderedLeft := some [lmZero], lastRenderedRight := none, handsVisible := true, timers := [(27920, VoyaCollector.TimerKind.settleThenCountdown)] }

def batS17 : ModalState := { recording := true, paused := false, frames := List.replicate 20 frameZ, mode := VoyaCollector.CaptureMode.RECORD, countdown := 3, label := "wave", user := "p1", dialect := "Bắc", completedCaptures := 4, currentCaptureIndex := 4, lastFrameTime := 31580, frameIntervalMs := 33, targetFrames := 60, captureCount := 5, filters := filtersAt 31580, renderPrev := [("leftHand.0", lmZero)], leftPresenceHistory := [true, true, true, true, true], rightPresenceHistory := [false, false, false, false, false], visibilityLeft := true, visibilityRight := false, lastRenderedLeft := some [lmZero], lastRenderedRight := none, handsVisible := true, timers := [] }

def batS18 : ModalState := { recording := true, paused := false, frames := List.replicate 40 frameZ, mode := VoyaCollector.CaptureMode.RECORD, countdown := 3, label := "wave", user := "p1", dialect := "Bắc", completedCaptures := 4, currentCaptureIndex := 4, lastFrameTime := 32240, frameIntervalMs := 33, targetFrames := 60, captureCount := 5, filters := filtersAt 32240, renderPrev := [("leftHand.0", lmZero)], leftPresenceHistory := [true, true, true, true, true], rightPresenceHistory := [false, false, false, false, false], visibilityLeft := true, visibilityRight := false, lastRenderedLeft := some [lmZero], lastRenderedRight := none, handsVisible := true, timers := [] }

def batS19 : ModalState := { recording := true, paused := false, frames := List.replicate 50 frameZ, mode := VoyaCollector.CaptureMode.RECORD, countdown := 3, label := "wave", user := "p1", dialect := "Bắc", completedCaptures := 4, currentCaptureIndex := 4, lastFrameTime := 32570, frameIntervalMs := 33, targetFrames := 60, captureCount := 5, filters := filtersAt 32570, renderPrev := [("leftHand.0", lmZero)], leftPresenceHistory := [true, true, true, true, true], rightPresenceHistory := [false, false, false, false, false], visibilityLeft := true, visibilityRight := false, lastRenderedLeft := some [lmZero], lastRenderedRight := none, handsVisible := true, timers := [] }

def batS20 : ModalState := { recording := false, paused := false, frames := List.replicate 60 frameZ, mode := VoyaCollector.CaptureMode.IDLE, countdown := 3, label := "wave", user := "p1", dialect := "Bắc", completedCaptures := 5, currentCaptureIndex := 5, lastFrameTime := 32900, frameIntervalMs := 33, targetFrames := 60, captureCount := 5, filters := filtersAt 32900, renderPrev := [("leftHand.0", lmZero)], leftPresenceHistory := [true, true, true, true, true], rightPresenceHistory := [false, false, false, false, false], visibilityLeft := true, visibilityRight := false, lastRenderedLeft := some [lmZero], lastRenderedRight := none, handsVisible := true, timers := [(33900, VoyaCollector.TimerKind.finalCleanup)] }

def batS21 : ModalState := { recording := false, paused := false, frames := [], mode := VoyaCollector.CaptureMode.IDLE, countdown := 2, label := "", user := "p1", dialect := "Bắc", completedCaptures := 0, currentCaptureIndex := 0, lastFrameTime := 0, frameIntervalMs := 33, targetFrames := 60, captureCount := 5, filters := filtersAt 32900, renderPrev := [("leftHand.0", lmZero)], leftPresenceHistory := [true, true, true, true, true], rightPresenceHistory := [false, false, false, false, false], visibilityLeft := true, visibilityRight := false, lastRenderedLeft := some [lmZero], lastRenderedRight := none, handsVisible := true, timers := [] }

/-! ### General lemmas. -/

/-- Splitting a trace splits the run: the second half continues from the
state the first half reaches, and outputs concatenate. -/
theorem runEvents_append (s : ModalState) (l1 l2 : List (Nat × CaptureEvent)) :
    runEvents s (l1 ++ l2) =
      ((runEvents (runEvents s l1).1 l2).1,
        (runEvents s l1).2.1 ++ (runEvents (runEvents s l1).1 l2).2.1,
        (runEvents s l1).2.2 ++ (runEvents (runEvents s l1).1 l2).2.2) := by
  induction l1 generalizing s with
  | nil => simp [runEvents]
  | cons te rest ih =>
      simp only [List.cons_append, runEvents, List.append_eq, ih]
      simp [List.append_assoc]


/-- Chaining two segment computations of a run. -/
theorem runEvents_chain {s s1 s2 : ModalState}
    {l1 l2 : List (Nat × CaptureEvent)} {e1 e2 : List EmittedSample}
    {a1 a2 : List String}
    (h1 : runEvents s l1 = (s1, e1, a1))
    (h2 : runEvents s1 l2 = (s2, e2, a2)) :
    runEvents s (l1 ++ l2) = (s2, e1 ++ e2, a1 ++ a2) := by
  rw [runEvents_append, h1]
  simp [h2]

section

attribute [local semireducible] Rat.inv Rat.mul Rat.add Rat.sub

theorem frameConfStep_foldl (lms : HandLandmarks) :
    ∀ p : ℚ × Nat,
      lms.foldl frameConfStep p =
        (p.1 + (lms.filterMap (fun lm => lm.visibility)).sum,
          p.2 + (lms.filterMap (fun lm => lm.visibility)).length) := by
  induction lms with
  | nil => intro p; simp [List.foldl]
  | cons lm rest ih =>
      intro p
      cases hv : lm.visibility with
      | none => simp [List.foldl, frameConfStep, hv, ih]
      | some v =>
          simp only [List.foldl, frameConfStep, hv, ih, List.filterMap_cons]
          simp [add_assoc, add_comm, add_left_comm]

theorem qualityStep_foldl (fs : List CapturedFrame) :
    ∀ acc : QualityAcc,
      fs.foldl qualityStep acc =
        ⟨acc.totalHandLandmarks
            + (fs.map (fun f => f.left_hand.length + f.right_hand.length)).sum,
          acc.framesWithHands + fs.countP frameHasHands,
          acc.framesAccepted + fs.countP frameHasHands,
          acc.confidenceSum + (visList fs).sum,
          acc.confidenceCount + (visList fs).length⟩ := by
  induction fs with
  | nil =>
      intro acc
      simp [List.foldl, visList]
  | cons f rest ih =>
      intro acc
      have hstep :
          qualityStep acc f =
            ⟨acc.totalHandLandmarks + (f.left_hand.length + f.right_hand.length),
              acc.framesWithHands
                + (if 0 < f.left_hand.length + f.right_hand.length then 1 else 0),
              acc.framesAccepted
                + (if 0 < f.left_hand.length + f.right_hand.length then 1 else 0),
              acc.confidenceSum
                + ((f.left_hand ++ f.right_hand).filterMap
                    (fun lm => lm.visibility)).sum,
              acc.confidenceCount
                + ((f.left_hand ++ f.right_hand).filterMap
                    (fun lm => lm.visibility)).length⟩ := by
        simp only [qualityStep]
        rw [frameConfStep_foldl]
        simp only [zero_add]
        split_ifs with hh hk hk
        · simp
        · have hnil :
              (f.left_hand ++ f.right_hand).filterMap
                (fun lm => lm.visibility) = [] := by
            rw [← List.length_eq_zero]; omega
          simp [hnil]
        · simp
        · have hnil :
              (f.left_hand ++ f.right_hand).filterMap
                (fun lm => lm.visibility) = [] := by
            rw [← List.length_eq_zero]; omega
          simp [hnil]
      rw [List.foldl_cons, hstep, ih]
      have hvis :
          visList (f :: rest) =
            (f.left_hand ++ f.right_hand).filterMap (fun lm => lm.visibility)
              ++ visList rest := rfl
      simp only [List.map_cons, List.sum_cons, List.countP_cons, hvis,
        List.sum_append, List.length_append, QualityAcc.mk.injEq,
        frameHasHands, decide_eq_true_eq]
      refine ⟨by ring, by ring, by ring, by ring, by ring⟩

/-! ### C7: presence history. -/

/-- C7: the presence history retains only the most recent 5 entries
(evicting the oldest when full), `isPresent` holds exactly when the
count of `true` entries strictly exceeds half the current history
length, and on the two spec scenarios `[T,T,F,F,F]` votes `false` while
`[T,T,T,F,F]` votes `true`. -/
theorem c7_presence_history_majority :
    (∀ xs : List Bool,
        List.foldl pushPresence [] xs
          = xs.drop (xs.length - PRESENCE_HISTORY_SIZE))
    ∧ (∀ h : List Bool,
        isPresent h = true ↔ h.length < 2 * presenceVotes h)
    ∧ isPresent (List.foldl pushPresence [] [true, true, false, false, false])
        = false
    ∧ isPresent (List.foldl pushPresence [] [true, true, true, false, false])
        = true := by
  refine ⟨?_, ?_, by with_unfolding_all decide, by with_unfolding_all decide⟩
  · intro xs
    induction xs using List.reverseRecOn with
    | nil => rfl
    | append_singleton ys b ih =>
        rw [List.foldl_append, List.foldl_cons, List.foldl_nil, ih]
        unfold pushPresence PRESENCE_HISTORY_SIZE
        by_cases h5 : ys.length < 5
        · have e1 : ys.length - 5 = 0 := by omega
          have e2 : (ys ++ [b]).length - 5 = 0 := by
            rw [List.length_append]
            simp only [List.length_cons, List.length_nil]
            omega
          rw [e1, e2, List.drop_zero, List.drop_zero, if_neg]
          rw [List.length_append]
          simp only [List.length_cons, List.length_nil]
          omega
        · have hlen : (List.drop (ys.length - 5) ys).length = 5 := by
            rw [List.length_drop]; omega
          rw [if_pos]
          · rw [← List.drop_one,
              List.drop_append_of_le_length (by omega : 1 ≤ (List.drop (ys.length - 5) ys).length),
              List.drop_drop, List.length_append]
            have h2 : ys.length + [b].length - 5 ≤ ys.length := by
              simp only [List.length_cons, List.length_nil]
              omega
            rw [List.drop_append_of_le_length h2]
            have hidx : ys.length - 5 + 1 = ys.length + [b].length - 5 := by
              simp only [List.length_cons, List.length_nil]
              omega
            rw [hidx]
          · rw [List.length_append, hlen]
            simp
  · intro h
    unfold isPresent presenceVotes
    rw [decide_eq_true_eq, gt_iff_lt,
      div_lt_iff₀ (by norm_num : (0 : ℚ) < 2)]
    constructor
    · intro hlt
      have : (h.length : ℚ) < ((h.countP (fun b => b) * 2 : Nat) : ℚ) := by
        push_cast; linarith
      have := Nat.cast_lt.mp this
      omega
    · intro hlt
      have : (h.length : ℚ) < ((2 * h.countP (fun b => b) : Nat) : ℚ) :=
        Nat.cast_lt.mpr hlt
      push_cast at this
      linarith

/-! ### C8: handedness classification. -/

/-- C8: the classifier iterates detections in detector order, applies the
global swap first, and assigns first-detection-wins per side: two `Left`
detections put the first in the left slot and leave the right slot
undefined; with the swap enabled, a `Left` and a `Right` detection land in
the opposite slots. -/
theorem c8_classifier_first_wins (lm1 lm2 : HandLandmarks) :
    classifyHands false [lm1, lm2] [some "Left", some "Left"]
        = (some lm1, none)
    ∧ classifyHands true [lm1, lm2] [some "Left", some "Right"]
        = (some lm2, some lm1) := by
  constructor <;> rfl

/-! ### C9 / C10: quality summarizer. -/

/-- C9: on a non-empty frame sequence, `framesAccepted` counts the frames
with at least one hand landmark, `percentFramesWithHands` is that count
over the total times 100, and the confidence summary averages exactly the
landmarks carrying a numeric visibility, being omitted (not zero) when
there are none. -/
theorem c9_quality_summary (fs : List CapturedFrame) (hne : fs ≠ []) :
    (computeQuality fs).framesAccepted = fs.countP frameHasHands
    ∧ (computeQuality fs).percentFramesWithHands
        = ((fs.countP frameHasHands : ℚ) / (fs.length : ℚ)) * 100
    ∧ (computeQuality fs).confidenceSummary
        = (if (visList fs).length = 0 then none
           else some ((visList fs).sum / ((visList fs).length : ℚ))) := by
  have hlen : fs.length ≠ 0 := fun h => hne (List.length_eq_zero.mp h)
  unfold computeQuality
  rw [qualityStep_foldl fs ⟨0, 0, 0, 0, 0⟩]
  simp [hlen]

/-- Witness for C9 at the spec's 10-frame scenario: 7 frames with one
hand landmark out of 10 give `framesAccepted = 7` and
`percentFramesWithHands = 70`. -/
theorem c9_quality_summary_witness :
    demoFrames ≠ []
    ∧ ((computeQuality demoFrames).framesAccepted
          = demoFrames.countP frameHasHands
        ∧ (computeQuality demoFrames).percentFramesWithHands
            = ((demoFrames.countP frameHasHands : ℚ)
                / (demoFrames.length : ℚ)) * 100
        ∧ (computeQuality demoFrames).confidenceSummary
            = (if (visList demoFrames).length = 0 then none
               else some ((visList demoFrames).sum
                  / ((visList demoFrames).length : ℚ))))
    ∧ (computeQuality demoFrames).framesAccepted = 7
    ∧ (computeQuality demoFrames).percentFramesWithHands = 70 :=
  ⟨by decide, c9_quality_summary demoFrames (by decide),
    by with_unfolding_all decide, by with_unfolding_all decide⟩

/-- C10: the quality summarizer is total on the empty frame sequence:
every division is guarded, and it returns zero counts and averages with
the confidence summary omitted. -/
theorem c10_quality_empty_total :
    computeQuality [] =
      { framesCollected := 0
        framesAccepted := 0
        avgPoseLandmarksPerFrame := 0
        percentFramesWithHands := 0
        confidenceSummary := none } := by
  rfl

/-! ### C2: the manual-stop guard. -/

/-- C2: invoking the manual stop (the stop handler or the Enter-key stop
path) with fewer than `targetFrames` buffered frames leaves the state
completely unchanged, emits no sample, and surfaces the blocking
validation alert. -/
theorem c2_short_stop_guard (s : ModalState) (now : Nat)
    (hshort : s.frames.length < s.targetFrames) :
    handleStop s
        = (s, [], [shortStopAlert s.frames.length s.targetFrames])
    ∧ (s.recording = true →
        pressEnterKey s now
          = (s, [], [shortStopAlert s.frames.length s.targetFrames])) := by
  constructor
  · unfold handleStop
    rw [if_pos hshort]
  · intro hrec
    unfold pressEnterKey
    simp [hrec, hshort, Nat.not_lt.mpr]

/-- Witness for C2: a recording state with one buffered frame (of sixty
required) is left untouched by both manual-stop paths, which alert
instead. -/
theorem c2_short_stop_guard_witness :
    pausedMidCapture.frames.length < pausedMidCapture.targetFrames
    ∧ (handleStop pausedMidCapture
          = (pausedMidCapture, [],
              [shortStopAlert pausedMidCapture.frames.length
                pausedMidCapture.targetFrames])
        ∧ (pausedMidCapture.recording = true →
            pressEnterKey pausedMidCapture 5000
              = (pausedMidCapture, [],
                  [shortStopAlert pausedMidCapture.frames.length
                    pausedMidCapture.targetFrames]))) :=
  ⟨by decide, c2_short_stop_guard pausedMidCapture 5000 (by decide)⟩

/-! ### C6: restart from pause. -/

/-- C6 counterexample: from a paused recording with one buffered frame,
the restart action clears the buffer but leaves `recording = true` and
the mode in `RECORD` — the machine does not return to `IDLE` and
recording is immediately in progress again, contradicting the claim. -/
theorem c6_restart_counterexample :
    pausedMidCapture.recording = true
    ∧ pausedMidCapture.paused = true
    ∧ 0 < pausedMidCapture.frames.length
    ∧ (handleRestart pausedMidCapture 4000).frames = []
    ∧ (handleRestart pausedMidCapture 4000).recording = true
    ∧ (handleRestart pausedMidCapture 4000).mode = CaptureMode.RECORD := by
  decide

/-- C6 as amended: restart taken from the PAUSED state discards the
buffer, resets the sampling clock and unpauses, while the recording flag,
the mode, the counters, the labels and the pending timers are untouched —
recording resumes immediately from an empty buffer with no new countdown
and no return to `IDLE`. -/
theorem c6_restart_keeps_recording (s : ModalState) (now : Nat)
    (hrec : s.recording = true) (hp : s.paused = true) :
    (handleRestart s now).frames = []
    ∧ (handleRestart s now).paused = false
    ∧ (handleRestart s now).recording = true
    ∧ (handleRestart s now).mode = s.mode
    ∧ (handleRestart s now).countdown = s.countdown
    ∧ (handleRestart s now).lastFrameTime = now
    ∧ (handleRestart s now).completedCaptures = s.completedCaptures
    ∧ (handleRestart s now).label = s.label
    ∧ (handleRestart s now).user = s.user
    ∧ (handleRestart s now).timers = s.timers := by
  unfold handleRestart
  exact ⟨rfl, rfl, hrec, rfl, rfl, rfl, rfl, rfl, rfl, rfl⟩

/-- Witness for the amended C6 at the concrete paused state. -/
theorem c6_restart_keeps_recording_witness :
    pausedMidCapture.recording = true
    ∧ pausedMidCapture.paused = true
    ∧ ((handleRestart pausedMidCapture 4000).frames = []
        ∧ (handleRestart pausedMidCapture 4000).paused = false
        ∧ (handleRestart pausedMidCapture 4000).recording = true
        ∧ (handleRestart pausedMidCapture 4000).mode = pausedMidCapture.mode
        ∧ (handleRestart pausedMidCapture 4000).countdown
            = pausedMidCapture.countdown
        ∧ (handleRestart pausedMidCapture 4000).lastFrameTime = 4000
        ∧ (handleRestart pausedMidCapture 4000).completedCaptures
            = pausedMidCapture.completedCaptures
        ∧ (handleRestart pausedMidCapture 4000).label = pausedMidCapture.label
        ∧ (handleRestart pausedMidCapture 4000).user = pausedMidCapture.user
        ∧ (handleRestart pausedMidCapture 4000).timers
            = pausedMidCapture.timers) :=
  ⟨by decide, by decide,
    c6_restart_keeps_recording pausedMidCapture 4000 (by decide) (by decide)⟩

/-! ### C3 / C4: the acceptance filter and the sampling-rate gate.
Bridging lemmas relating the source's acceptance condition to the spec's
wording, and length preservation of the landmark filter. -/

theorem handAnyVisible_imp_nonempty (h : Option HandLandmarks) :
    handAnyVisible h = true → 0 < (h.getD []).length := by
  cases h with
  | none => simp [handAnyVisible]
  | some l =>
      cases l with
      | nil => simp [handAnyVisible]
      | cons a t => simp

theorem accepts_eq (cl cr : Option HandLandmarks) :
    ((handAnyVisible cl || handAnyVisible cr)
      || (decide (0 < (cl.getD []).length) || decide (0 < (cr.getD []).length)))
    = specAccepts cl cr := by
  have h1 := handAnyVisible_imp_nonempty cl
  have h2 := handAnyVisible_imp_nonempty cr
  have e1 : specAccepts cl cr
      = (decide (0 < (cl.getD []).length) || decide (0 < (cr.getD []).length)) := by
    unfold specAccepts
    cases cl with
    | none =>
        cases cr with
        | none => simp
        | some r => cases r with
          | nil => simp
          | cons a t => simp
    | some l =>
        cases l with
        | nil =>
            cases cr with
            | none => simp
            | some r => cases r with
              | nil => simp
              | cons a t => simp
        | cons a t => simp
  rw [e1]
  cases hv1 : handAnyVisible cl with
  | false =>
      cases hv2 : handAnyVisible cr with
      | false => simp
      | true => simp [h2 hv2]
  | true => simp [h1 hv1]

theorem filterLandmarkStep_fst (g : String) (now : Nat)
    (acc : HandLandmarks × FilterBank × Nat) (lm : MediaPipeLandmark) :
    (filterLandmarkStep g now acc lm).1.length = acc.1.length + 1 := by
  unfold filterLandmarkStep
  cases lm.visibility <;> simp

theorem filterFold_length (g : String) (now : Nat) (lms : HandLandmarks) :
    ∀ acc : HandLandmarks × FilterBank × Nat,
      (lms.foldl (filterLandmarkStep g now) acc).1.length
        = acc.1.length + lms.length := by
  induction lms with
  | nil => intro acc; simp
  | cons lm rest ih =>
      intro acc
      simp only [List.foldl_cons, List.length_cons]
      rw [ih, filterLandmarkStep_fst]
      omega

theorem filterLandmarks_length (bank : FilterBank)
    (l : Option HandLandmarks) (g : String) (now : Nat) :
    ((filterLandmarks bank l g now).1).length = (l.getD []).length := by
  cases l with
  | none => simp [filterLandmarks]
  | some lms =>
      unfold filterLandmarks
      simp only [Option.getD_some]
      rw [filterFold_length]
      simp

theorem specAccepts_nonempty (cl cr : Option HandLandmarks)
    (h : specAccepts cl cr = true) :
    0 < (cl.getD []).length + (cr.getD []).length := by
  unfold specAccepts at h
  rcases Bool.or_eq_true_iff.mp h with h1 | h2
  · exact of_decide_eq_true h1
  · rcases List.any_eq_true.mp h2 with ⟨lm, hmem, _⟩
    have := List.length_pos_of_mem hmem
    simp only [List.length_append] at this
    omega

theorem specAccepts_left (l : HandLandmarks) (hl : l ≠ [])
    (cr : Option HandLandmarks) : specAccepts (some l) cr = true := by
  unfold specAccepts
  have hp : 0 < l.length := List.length_pos.mpr hl
  have : 0 < l.length + ((cr.getD []).length) := by omega
  simp [this]

theorem acceptFrame_eq (s : ModalState) (now : Nat)
    (cl cr : Option HandLandmarks) :
    acceptFrame s now cl cr
      = if specAccepts cl cr = true
        then { s with
                frames := s.frames
                  ++ [⟨(filterLandmarks s.filters cl "leftHand" now).1,
                       (filterLandmarks
                          (filterLandmarks s.filters cl "leftHand" now).2
                          cr "rightHand" now).1⟩],
                filters := (filterLandmarks
                    (filterLandmarks s.filters cl "leftHand" now).2
                    cr "rightHand" now).2 }
        else s := by
  unfold acceptFrame
  rw [accepts_eq]
  cases h : specAccepts cl cr <;> simp

theorem completeIfFull_small (s4 : ModalState) (now : Nat)
    (h : s4.frames.length < TARGET_FRAMES) :
    completeIfFull s4 now = (s4, []) := by
  unfold completeIfFull
  rw [if_neg (by omega)]

/-- C3: for a detection frame arriving while recording and unpaused that
passes the sampling-rate gate (and leaves room below the frame target),
the frame is appended to the buffer if and only if, after substituting the
last-known landmark set for a momentarily undetected hand whose voted
presence is still true, at least one hand has a nonzero landmark count or
a landmark with visibility at least one half; rejected frames are dropped
unchanged, every stored frame is a previous frame or has a nonempty hand
list, and no sample is emitted by the buffering itself. -/
theorem c3_acceptance_filter (s : ModalState) (now : Nat)
    (leftHL rightHL : Option HandLandmarks) (lv rv : Bool)
    (hrec : s.recording = true) (hp : s.paused = false)
    (hgate : ¬ now - s.lastFrameTime < s.frameIntervalMs)
    (hroom : s.frames.length + 1 < TARGET_FRAMES) :
    (captureStep s now leftHL rightHL lv rv).1.frames
      = (if specAccepts (substitutedHand leftHL lv s.lastRenderedLeft)
              (substitutedHand rightHL rv s.lastRenderedRight) = true
         then s.frames
             ++ [⟨(filterLandmarks s.filters
                     (substitutedHand leftHL lv s.lastRenderedLeft)
                     "leftHand" now).1,
                  (filterLandmarks
                     (filterLandmarks s.filters
                        (substitutedHand leftHL lv s.lastRenderedLeft)
                        "leftHand" now).2
                     (substitutedHand rightHL rv s.lastRenderedRight)
                     "rightHand" now).1⟩]
         else s.frames)
      ∧ (∀ f ∈ (captureStep s now leftHL rightHL lv rv).1.frames,
            f ∈ s.frames ∨ ¬ (f.left_hand = [] ∧ f.right_hand = []))
      ∧ (captureStep s now leftHL rightHL lv rv).2 = [] := by
  have hmain : (captureStep s now leftHL rightHL lv rv)
      = ((if specAccepts (substitutedHand leftHL lv s.lastRenderedLeft)
              (substitutedHand rightHL rv s.lastRenderedRight) = true
         then { s with
                 lastFrameTime := now
                 handsVisible := lv || rv
                   || (decide (0 < ((substitutedHand leftHL lv s.lastRenderedLeft).getD []).length)
                       || decide (0 < ((substitutedHand rightHL rv s.lastRenderedRight).getD []).length))
                   || (handAnyVisible (substitutedHand leftHL lv s.lastRenderedLeft)
                       || handAnyVisible (substitutedHand rightHL rv s.lastRenderedRight))
                 frames := s.frames
                   ++ [⟨(filterLandmarks s.filters
                           (substitutedHand leftHL lv s.lastRenderedLeft)
                           "leftHand" now).1,
                        (filterLandmarks
                           (filterLandmarks s.filters
                              (substitutedHand leftHL lv s.lastRenderedLeft)
                              "leftHand" now).2
                           (substitutedHand rightHL rv s.lastRenderedRight)
                           "rightHand" now).1⟩]
                 filters := (filterLandmarks
                     (filterLandmarks s.filters
                        (substitutedHand leftHL lv s.lastRenderedLeft)
                        "leftHand" now).2
                     (substitutedHand rightHL rv s.lastRenderedRight)
                     "rightHand" now).2 }
         else { s with
                 lastFrameTime := now
                 handsVisible := lv || rv
                   || (decide (0 < ((substitutedHand leftHL lv s.lastRenderedLeft).getD []).length)
                       || decide (0 < ((substitutedHand rightHL rv s.lastRenderedRight).getD []).length))
                   || (handAnyVisible (substitutedHand leftHL lv s.lastRenderedLeft)
                       || handAnyVisible (substitutedHand rightHL rv s.lastRenderedRight)) }),
        []) := by
    simp only [captureStep, hrec, hp, Bool.not_false, Bool.and_self, if_true,
      if_neg hgate]
    rw [acceptFrame_eq]
    cases h : specAccepts (substitutedHand leftHL lv s.lastRenderedLeft)
        (substitutedHand rightHL rv s.lastRenderedRight) with
    | false =>
        simp only [Bool.false_eq_true, if_false]
        rw [completeIfFull_small]
        exact (show s.frames.length < TARGET_FRAMES by omega)
    | true =>
        simp only [if_true]
        rw [completeIfFull_small]
        exact (show (s.frames ++ [(⟨(filterLandmarks s.filters
                 (substitutedHand leftHL lv s.lastRenderedLeft)
                 "leftHand" now).1,
              (filterLandmarks
                 (filterLandmarks s.filters
                    (substitutedHand leftHL lv s.lastRenderedLeft)
                    "leftHand" now).2
                 (substitutedHand rightHL rv s.lastRenderedRight)
                 "rightHand" now).1⟩ : CapturedFrame)]).length < TARGET_FRAMES by
          rw [List.length_append]
          simp only [List.length_cons, List.length_nil]
          omega)
  refine ⟨?_, ?_, ?_⟩
  · rw [hmain]
    cases h : specAccepts (substitutedHand leftHL lv s.lastRenderedLeft)
        (substitutedHand rightHL rv s.lastRenderedRight) <;> simp
  · intro f hf
    rw [hmain] at hf
    cases h : specAccepts (substitutedHand leftHL lv s.lastRenderedLeft)
        (substitutedHand rightHL rv s.lastRenderedRight) with
    | false =>
        rw [h] at hf
        simp only [Bool.false_eq_true, if_false] at hf
        exact Or.inl hf
    | true =>
        rw [h] at hf
        simp only [if_true] at hf
        rcases List.mem_append.mp hf with hin | hnew
        · exact Or.inl hin
        · right
          rintro ⟨hl0, hr0⟩
          have hlen := specAccepts_nonempty _ _ h
          have e1 := filterLandmarks_length s.filters
            (substitutedHand leftHL lv s.lastRenderedLeft) "leftHand" now
          have e2 := filterLandmarks_length
            (filterLandmarks s.filters
              (substitutedHand leftHL lv s.lastRenderedLeft) "leftHand" now).2
            (substitutedHand rightHL rv s.lastRenderedRight) "rightHand" now
          simp only [List.mem_singleton] at hnew
          subst hnew
          dsimp only at hl0 hr0
          rw [hl0] at e1
          rw [hr0] at e2
          simp only [List.length_nil] at e1 e2
          omega
  · rw [hmain]

/-- Witness for C3 at a concrete mid-capture state and a one-landmark
left-hand detection. -/
theorem c3_acceptance_filter_witness :
    (bugS1.recording = true ∧ bugS1.paused = false
      ∧ ¬ (3700 - bugS1.lastFrameTime < bugS1.frameIntervalMs)
      ∧ bugS1.frames.length + 1 < TARGET_FRAMES)
    ∧ (captureStep bugS1 3700 (some [lmZero]) none true false).1.frames
        = (if specAccepts (substitutedHand (some [lmZero]) true bugS1.lastRenderedLeft)
                (substitutedHand none false bugS1.lastRenderedRight) = true
           then bugS1.frames
               ++ [⟨(filterLandmarks bugS1.filters
                       (substitutedHand (some [lmZero]) true bugS1.lastRenderedLeft)
                       "leftHand" 3700).1,
                    (filterLandmarks
                       (filterLandmarks bugS1.filters
                          (substitutedHand (some [lmZero]) true bugS1.lastRenderedLeft)
                          "leftHand" 3700).2
                       (substitutedHand none false bugS1.lastRenderedRight)
                       "rightHand" 3700).1⟩]
           else bugS1.frames) :=
  ⟨⟨rfl, rfl, by decide, by decide⟩,
    (c3_acceptance_filter bugS1 3700 (some [lmZero]) none true false rfl rfl
      (by decide) (by decide)).1⟩

/-- C4 counterexample: after a quick start at 0 ms the record start fires
at 3000 ms and resets the sampling clock to 3000; the first detection
frame, arriving 10 ms later, is rejected by the rate gate (the buffer
stays empty even though recording is on), while a frame arriving a full
interval after the record start is accepted.  The claim that the first
post-countdown frame is always eligible is false. -/
theorem c4_first_frame_counterexample :
    (runEvents (initState "wave" "p1")
        [(0, .pressStart), (3010, resultsLeftHand)]).1.recording = true
    ∧ (runEvents (initState "wave" "p1")
        [(0, .pressStart), (3010, resultsLeftHand)]).1.lastFrameTime = 3000
    ∧ (runEvents (initState "wave" "p1")
        [(0, .pressStart), (3010, resultsLeftHand)]).1.frames = []
    ∧ (runEvents (initState "wave" "p1")
        [(0, .pressStart), (3033, resultsLeftHand)]).1.frames.length = 1 := by
  refine ⟨?_, ?_, ?_, ?_⟩ <;> decide

/-- C4 as amended: the countdown-to-record transition of the quick-start
path resets the rate gate's last-sample time to the instant the record
start fires, and the first detection frame is eligible if and only if at
least one sampling interval has elapsed since that instant: an earlier
frame leaves the state unchanged, a later one is sampled. -/
theorem c4_rate_gate_reset (s : ModalState) (d now : Nat) (lv rv : Bool)
    (hp : s.paused = false)
    (hroom : s.frames.length + 1 < TARGET_FRAMES) :
    (fireTimer s d .recordStartQuick).lastFrameTime = d
    ∧ (fireTimer s d .recordStartQuick).recording = true
    ∧ (fireTimer s d .recordStartQuick).mode = CaptureMode.RECORD
    ∧ (now - d < s.frameIntervalMs →
        captureStep (fireTimer s d .recordStartQuick) now
            (some [lmZero]) none lv rv
          = (fireTimer s d .recordStartQuick, []))
    ∧ (¬ now - d < s.frameIntervalMs →
        (captureStep (fireTimer s d .recordStartQuick) now
            (some [lmZero]) none lv rv).1.frames.length
          = s.frames.length + 1) := by
  refine ⟨rfl, rfl, rfl, ?_, ?_⟩
  · intro h
    simp only [captureStep, fireTimer, hp, Bool.not_false, Bool.and_self,
      if_true]
    rw [if_pos h]
  · intro h
    simp only [captureStep, fireTimer, hp, Bool.not_false, Bool.and_self,
      if_true]
    rw [if_neg h]
    rw [acceptFrame_eq]
    have hsub : substitutedHand (some [lmZero]) lv s.lastRenderedLeft
        = some [lmZero] := rfl
    rw [hsub, specAccepts_left [lmZero] (by simp)]
    simp only [if_true]
    rw [completeIfFull_small]
    · simp
    · simp only [List.length_append, List.length_cons, List.length_nil]
      omega

/-- Witness for the amended C4: record start at 3000 ms, first frame at
3010 ms. -/
theorem c4_rate_gate_reset_witness :
    ((initState "wave" "p1").paused = false
      ∧ (initState "wave" "p1").frames.length + 1 < TARGET_FRAMES)
    ∧ ((fireTimer (initState "wave" "p1") 3000 .recordStartQuick).lastFrameTime = 3000
       ∧ (fireTimer (initState "wave" "p1") 3000 .recordStartQuick).recording = true
       ∧ (fireTimer (initState "wave" "p1") 3000 .recordStartQuick).mode = CaptureMode.RECORD
       ∧ (3010 - 3000 < (initState "wave" "p1").frameIntervalMs →
           captureStep (fireTimer (initState "wave" "p1") 3000 .recordStartQuick) 3010
               (some [lmZero]) none false false
             = (fireTimer (initState "wave" "p1") 3000 .recordStartQuick, []))
       ∧ (¬ 3010 - 3000 < (initState "wave" "p1").frameIntervalMs →
           (captureStep (fireTimer (initState "wave" "p1") 3000 .recordStartQuick) 3010
               (some [lmZero]) none false false).1.frames.length
             = (initState "wave" "p1").frames.length + 1)) :=
  ⟨⟨rfl, by decide⟩,
    c4_rate_gate_reset (initState "wave" "p1") 3000 3010 false false rfl (by decide)⟩

/-! ### Segment computations of the two long runs. -/

set_option maxRecDepth 1000000 in
theorem bugStep1 : runEvents (initState "wave" "p1") ((0, .pressStart) :: (2500, .pressEnter) :: (captureBlock 3033).take 20) = (bugS1, [], []) := by decide

set_option maxRecDepth 1000000 in
theorem bugStep2 : runEvents bugS1 (((captureBlock 3033).drop 20).take 20) = (bugS2, [], []) := by decide

set_option maxRecDepth 1000000 in
theorem bugStep3 : runEvents bugS2 (((captureBlock 3033).drop 40).take 10) = (bugS3, [], []) := by decide

set_option maxRecDepth 1000000 in
theorem bugStep4 : runEvents bugS3 ((captureBlock 3033).drop 50) = (bugS4, [sample60], []) := by decide

set_option maxRecDepth 1000000 in
theorem bugStep5 : runEvents bugS4 ((captureBlock 5510).take 20) = (bugS5, [], []) := by decide

set_option maxRecDepth 1000000 in
theorem bugStep6 : runEvents bugS5 (((captureBlock 5510).drop 20).take 20) = (bugS6, [], []) := by decide

set_option maxRecDepth 1000000 in
theorem bugStep7 : runEvents bugS6 (((captureBlock 5510).drop 40).take 10) = (bugS7, [], []) := by decide

set_option maxRecDepth 1000000 in
theorem bugStep8 : runEvents bugS7 ((captureBlock 5510).drop 50) = (bugS8, [sample60], []) := by decide

set_option maxRecDepth 1000000 in
theorem bugStep9 : runEvents bugS8 ((captureBlock 10013).take 20) = (bugS9, [], []) := by decide

set_option maxRecDepth 1000000 in
theorem bugStep10 : runEvents bugS9 (((captureBlock 10013).drop 20).take 20) = (bugS10, [], []) := by decide

set_option maxRecDepth 1000000 in
theorem bugStep11 : runEvents bugS10 (((captureBlock 10013).drop 40).take 10) = (bugS11, [], []) := by decide

set_option maxRecDepth 1000000 in
theorem bugStep12 : runEvents bugS11 ((captureBlock 10013).drop 50) = (bugS12, [sample60], []) := by decide

set_option maxRecDepth 1000000 in
theorem bugStep13 : runEvents bugS12 ((captureBlock 12490).take 20) = (bugS13, [], []) := by decide

set_option maxRecDepth 1000000 in
theorem bugStep14 : runEvents bugS13 (((captureBlock 12490).drop 20).take 20) = (bugS14, [], []) := by decide

set_option maxRecDepth 1000000 in
theorem bugStep15 : runEvents bugS14 (((captureBlock 12490).drop 40).take 10) = (bugS15, [], []) := by decide

set_option maxRecDepth 1000000 in
theorem bugStep16 : runEvents bugS15 ((captureBlock 12490).drop 50) = (bugS16, [sample60], []) := by decide

set_option maxRecDepth 1000000 in
theorem bugStep17 : runEvents bugS16 ((captureBlock 16993).take 20) = (bugS17, [], []) := by decide

set_option maxRecDepth 1000000 in
theorem bugStep18 : runEvents bugS17 (((captureBlock 16993).drop 20).take 20) = (bugS18, [], []) := by decide

set_option maxRecDepth 1000000 in
theorem bugStep19 : runEvents bugS18 (((captureBlock 16993).drop 40).take 10) = (bugS19, [], []) := by decide

set_option maxRecDepth 1000000 in
theorem bugStep20 : runEvents bugS19 ((captureBlock 16993).drop 50) = (bugS20, [sample60], []) := by decide

set_option maxRecDepth 1000000 in
theorem bugStep21 : runEvents bugS20 ([(19470, resultsLeftHand)]) = (bugS21, [sample61], []) := by decide

set_option maxRecDepth 1000000 in
theorem batStep1 : runEvents (initState "wave" "p1") ((0, .pressStart) :: (captureBlock 3033).take 20) = (batS1, [], []) := by decide

set_option maxRecDepth 1000000 in
theorem batStep2 : runEvents batS1 (((captureBlock 3033).drop 20).take 20) = (batS2, [], []) := by decide

set_option maxRecDepth 1000000 in
theorem batStep3 : runEvents batS2 (((captureBlock 3033).drop 40).take 10) = (batS3, [], []) := by decide

set_option maxRecDepth 1000000 in
theorem batStep4 : runEvents batS3 ((captureBlock 3033).drop 50) = (batS4, [sample60], []) := by decide

set_option maxRecDepth 1000000 in
theorem batStep5 : runEvents batS4 ((captureBlock 10013).take 20) = (batS5, [], []) := by decide

set_option maxRecDepth 1000000 in
theorem batStep6 : runEvents batS5 (((captureBlock 10013).drop 20).take 20) = (batS6, [], []) := by decide

set_option maxRecDepth 1000000 in
theorem batStep7 : runEvents batS6 (((captureBlock 10013).drop 40).take 10) = (batS7, [], []) := by decide

set_option maxRecDepth 1000000 in
theorem batStep8 : runEvents batS7 ((captureBlock 10013).drop 50) = (batS8, [sample60], []) := by decide

set_option maxRecDepth 1000000 in
theorem batStep9 : runEvents batS8 ((captureBlock 16993).take 20) = (batS9, [], []) := by decide

set_option maxRecDepth 1000000 in
theorem batStep10 : runEvents batS9 (((captureBlock 16993).drop 20).take 20) = (batS10, [], []) := by decide

set_option maxRecDepth 1000000 in
theorem batStep11 : runEvents batS10 (((captureBlock 16993).drop 40).take 10) = (batS11, [], []) := by decide

set_option maxRecDepth 1000000 in
theorem batStep12 : runEvents batS11 ((captureBlock 16993).drop 50) = (batS12, [sample60], []) := by decide

set_option maxRecDepth 1000000 in
theorem batStep13 : runEvents batS12 ((captureBlock 23973).take 20) = (batS13, [], []) := by decide

set_option maxRecDepth 1000000 in
theorem batStep14 : runEvents batS13 (((captureBlock 23973).drop 20).take 20) = (batS14, [], []) := by decide

set_option maxRecDepth 1000000 in
theorem batStep15 : runEvents batS14 (((captureBlock 23973).drop 40).take 10) = (batS15, [], []) := by decide

set_option maxRecDepth 1000000 in
theorem batStep16 : runEvents batS15 ((captureBlock 23973).drop 50) = (batS16, [sample60], []) := by decide

set_option maxRecDepth 1000000 in
theorem batStep17 : runEvents batS16 ((captureBlock 30953).take 20) = (batS17, [], []) := by decide

set_option maxRecDepth 1000000 in
theorem batStep18 : runEvents batS17 (((captureBlock 30953).drop 20).take 20) = (batS18, [], []) := by decide

set_option maxRecDepth 1000000 in
theorem batStep19 : runEvents batS18 (((captureBlock 30953).drop 40).take 10) = (batS19, [], []) := by decide

set_option maxRecDepth 1000000 in
theorem batStep20 : runEvents batS19 ((captureBlock 30953).drop 50) = (batS20, [sample60], []) := by decide

set_option maxRecDepth 1000000 in
theorem batStep21 : runEvents batS20 ([(33901, CaptureEvent.tickSecond)]) = (batS21, [], []) := by decide


set_option maxRecDepth 1000000 in
/-- The segmented replay of the double-start run, assembled. -/
theorem bugTrace_run :
    runEvents (initState "wave" "p1") bugTrace
      = (bugS21,
          [sample60, sample60, sample60, sample60, sample60, sample61],
          []) := by
  have h21 := bugStep21
  have h20 := runEvents_chain bugStep20 h21
  have h19 := runEvents_chain bugStep19 h20
  have h18 := runEvents_chain bugStep18 h19
  have h17 := runEvents_chain bugStep17 h18
  have h16 := runEvents_chain bugStep16 h17
  have h15 := runEvents_chain bugStep15 h16
  have h14 := runEvents_chain bugStep14 h15
  have h13 := runEvents_chain bugStep13 h14
  have h12 := runEvents_chain bugStep12 h13
  have h11 := runEvents_chain bugStep11 h12
  have h10 := runEvents_chain bugStep10 h11
  have h9 := runEvents_chain bugStep9 h10
  have h8 := runEvents_chain bugStep8 h9
  have h7 := runEvents_chain bugStep7 h8
  have h6 := runEvents_chain bugStep6 h7
  have h5 := runEvents_chain bugStep5 h6
  have h4 := runEvents_chain bugStep4 h5
  have h3 := runEvents_chain bugStep3 h4
  have h2 := runEvents_chain bugStep2 h3
  have h1 := runEvents_chain bugStep1 h2
  have e : bugTrace = ((0, .pressStart) :: (2500, .pressEnter) :: (captureBlock 3033).take 20) ++ ((((captureBlock 3033).drop 20).take 20) ++ ((((captureBlock 3033).drop 40).take 10) ++ (((captureBlock 3033).drop 50) ++ (((captureBlock 5510).take 20) ++ ((((captureBlock 5510).drop 20).take 20) ++ ((((captureBlock 5510).drop 40).take 10) ++ (((captureBlock 5510).drop 50) ++ (((captureBlock 10013).take 20) ++ ((((captureBlock 10013).drop 20).take 20) ++ ((((captureBlock 10013).drop 40).take 10) ++ (((captureBlock 10013).drop 50) ++ (((captureBlock 12490).take 20) ++ ((((captureBlock 12490).drop 20).take 20) ++ ((((captureBlock 12490).drop 40).take 10) ++ (((captureBlock 12490).drop 50) ++ (((captureBlock 16993).take 20) ++ ((((captureBlock 16993).drop 20).take 20) ++ ((((captureBlock 16993).drop 40).take 10) ++ (((captureBlock 16993).drop 50) ++ (([(19470, resultsLeftHand)]))))))))))))))))))))) := by decide
  rw [e]
  exact h1.trans rfl

set_option maxRecDepth 1000000 in
/-- The segmented replay of the normal batch run, assembled. -/
theorem batchTrace_run :
    runEvents (initState "wave" "p1") batchTrace
      = (batS21,
          [sample60, sample60, sample60, sample60, sample60],
          []) := by
  have h21 := batStep21
  have h20 := runEvents_chain batStep20 h21
  have h19 := runEvents_chain batStep19 h20
  have h18 := runEvents_chain batStep18 h19
  have h17 := runEvents_chain batStep17 h18
  have h16 := runEvents_chain batStep16 h17
  have h15 := runEvents_chain batStep15 h16
  have h14 := runEvents_chain batStep14 h15
  have h13 := runEvents_chain batStep13 h14
  have h12 := runEvents_chain batStep12 h13
  have h11 := runEvents_chain batStep11 h12
  have h10 := runEvents_chain batStep10 h11
  have h9 := runEvents_chain batStep9 h10
  have h8 := runEvents_chain batStep8 h9
  have h7 := runEvents_chain batStep7 h8
  have h6 := runEvents_chain batStep6 h7
  have h5 := runEvents_chain batStep5 h6
  have h4 := runEvents_chain batStep4 h5
  have h3 := runEvents_chain batStep3 h4
  have h2 := runEvents_chain batStep2 h3
  have h1 := runEvents_chain batStep1 h2
  have e : batchTrace = ((0, .pressStart) :: (captureBlock 3033).take 20) ++ ((((captureBlock 3033).drop 20).take 20) ++ ((((captureBlock 3033).drop 40).take 10) ++ (((captureBlock 3033).drop 50) ++ (((captureBlock 10013).take 20) ++ ((((captureBlock 10013).drop 20).take 20) ++ ((((captureBlock 10013).drop 40).take 10) ++ (((captureBlock 10013).drop 50) ++ (((captureBlock 16993).take 20) ++ ((((captureBlock 16993).drop 20).take 20) ++ ((((captureBlock 16993).drop 40).take 10) ++ (((captureBlock 16993).drop 50) ++ (((captureBlock 23973).take 20) ++ ((((captureBlock 23973).drop 20).take 20) ++ ((((captureBlock 23973).drop 40).take 10) ++ (((captureBlock 23973).drop 50) ++ (((captureBlock 30953).take 20) ++ ((((captureBlock 30953).drop 20).take 20) ++ ((((captureBlock 30953).drop 40).take 10) ++ (((captureBlock 30953).drop 50) ++ (([(33901, CaptureEvent.tickSecond)]))))))))))))))))))))) := by decide
  rw [e]
  exact h1.trans rfl

set_option maxRecDepth 1000000 in
/-- The run of the batch input through the end of the first capture:
the buffer is cleared, one sample is out and the settle timer is
pending. -/
theorem batPrefix4_run :
    runEvents (initState "wave" "p1") ((0, .pressStart) :: captureBlock 3033)
      = (batS4, [sample60], []) := by
  have h4 := batStep4
  have h3 := runEvents_chain batStep3 h4
  have h2 := runEvents_chain batStep2 h3
  have h1 := runEvents_chain batStep1 h2
  have e : (0, .pressStart) :: captureBlock 3033
      = ((0, .pressStart) :: (captureBlock 3033).take 20) ++ ((((captureBlock 3033).drop 20).take 20) ++ ((((captureBlock 3033).drop 40).take 10) ++ (((captureBlock 3033).drop 50)))) := by decide
  rw [e]
  exact h1.trans rfl

set_option maxRecDepth 1000000 in
/-- The batch run twenty detections into the second capture: the second
record start has fired automatically with label and user preserved. -/
theorem batPrefix5_run :
    runEvents (initState "wave" "p1")
        ((0, .pressStart) :: captureBlock 3033 ++ (captureBlock 10013).take 20)
      = (batS5, [sample60], []) := by
  have h5 := batStep5
  have h4 := runEvents_chain batStep4 h5
  have h3 := runEvents_chain batStep3 h4
  have h2 := runEvents_chain batStep2 h3
  have h1 := runEvents_chain batStep1 h2
  have e : (0, .pressStart) :: captureBlock 3033 ++ (captureBlock 10013).take 20
      = ((0, .pressStart) :: (captureBlock 3033).take 20) ++ ((((captureBlock 3033).drop 20).take 20) ++ ((((captureBlock 3033).drop 40).take 10) ++ (((captureBlock 3033).drop 50) ++ (((captureBlock 10013).take 20))))) := by decide
  rw [e]
  exact h1.trans rfl

/-- C1: refuted — the Capture Sequencer can emit a sample longer than the
configured frame target.  On the double-start input `bugTrace` (start
pressed, then Enter pressed during the initial countdown; the source never
cancels its timers) the uncancelled record-start timer of the fourth
completion chain fires inside the one-second window before the final
cleanup, while the 60-frame buffer of the fifth capture is still
uncleared, and the next accepted detection produces a sixth, 61-frame
sample. -/
theorem c1_sequencer_frame_count :
    (runEvents (initState "wave" "p1") bugTrace).2.1.map
        (fun e => e.frames.length) = [60, 60, 60, 60, 60, 61]
    ∧ ∃ e ∈ (runEvents (initState "wave" "p1") bugTrace).2.1,
        TARGET_FRAMES < e.frames.length := by
  constructor
  · rw [bugTrace_run]
    rfl
  · exact ⟨sample61, by rw [bugTrace_run]; decide, by decide⟩

/-- C5: the normal batch run with `CAPTURE_COUNT` captures of accepted
frames emits exactly `CAPTURE_COUNT` samples of exactly `TARGET_FRAMES`
frames each, all carrying the session's label and user; after the first
sample the buffer is cleared and the settle timer is pending, and twenty
frames into the second capture recording has restarted automatically with
the label and user preserved; after the final cleanup the machine is back
in `IDLE` with the completed-capture counter reset to zero, the label
cleared, the user preserved and the buffer empty. -/
theorem c5_batch_completion :
    (runEvents (initState "wave" "p1") batchTrace).2.1.map
        (fun e => (e.frames.length, e.label, e.user))
      = List.replicate CAPTURE_COUNT (TARGET_FRAMES, "wave", "p1")
    ∧ (runEvents (initState "wave" "p1") batchTrace).1.mode = CaptureMode.IDLE
    ∧ (runEvents (initState "wave" "p1") batchTrace).1.completedCaptures = 0
    ∧ (runEvents (initState "wave" "p1") batchTrace).1.label = ""
    ∧ (runEvents (initState "wave" "p1") batchTrace).1.user = "p1"
    ∧ (runEvents (initState "wave" "p1") batchTrace).1.frames = []
    ∧ (runEvents (initState "wave" "p1")
          ((0, .pressStart) :: captureBlock 3033)).1.frames = []
    ∧ (runEvents (initState "wave" "p1")
          ((0, .pressStart) :: captureBlock 3033)).1.timers
        = [(6980, TimerKind.settleThenCountdown)]
    ∧ (runEvents (initState "wave" "p1")
          ((0, .pressStart) :: captureBlock 3033)).1.label = "wave"
    ∧ (runEvents (initState "wave" "p1")
          ((0, .pressStart) :: captureBlock 3033)).1.user = "p1"
    ∧ (runEvents (initState "wave" "p1")
          ((0, .pressStart) :: captureBlock 3033)).2.1.length = 1
    ∧ (runEvents (initState "wave" "p1")
          ((0, .pressStart) :: captureBlock 3033
            ++ (captureBlock 10013).take 20)).1.recording = true
    ∧ (runEvents (initState "wave" "p1")
          ((0, .pressStart) :: captureBlock 3033
            ++ (captureBlock 10013).take 20)).1.mode = CaptureMode.RECORD
    ∧ (runEvents (initState "wave" "p1")
          ((0, .pressStart) :: captureBlock 3033
            ++ (captureBlock 10013).take 20)).1.completedCaptures = 1
    ∧ (runEvents (initState "wave" "p1")
          ((0, .pressStart) :: captureBlock 3033
            ++ (captureBlock 10013).take 20)).1.label = "wave" := by
  refine ⟨?_, ?_, ?_, ?_, ?_, ?_, ?_, ?_, ?_, ?_, ?_, ?_, ?_, ?_, ?_⟩
  · rw [batchTrace_run]; rfl
  · rw [batchTrace_run]; rfl
  · rw [batchTrace_run]; rfl
  · rw [batchTrace_run]; rfl
  · rw [batchTrace_run]; rfl
  · rw [batchTrace_run]; rfl
  · rw [batPrefix4_run]; rfl
  · rw [batPrefix4_run]; rfl
  · rw [batPrefix4_run]; rfl
  · rw [batPrefix4_run]; rfl
  · rw [batPrefix4_run]; rfl
  · rw [batPrefix5_run]; rfl
  · rw [batPrefix5_run]; rfl
  · rw [batPrefix5_run]; rfl
  · rw [batPrefix5_run]; rfl


end

end VoyaCollector
